import Mathlib

/-!
Staff rota front end: service worker, skeleton loader, form auto-save and colour contrast
checker.

A shallow embedding of `scheduling/static/js/service-worker.js` (version 1.7), of the one whole
function of the older copy `staticfiles/js/service-worker.js` (version 1.4), of
`skeleton-loader.js`, of `form-autosave.js` and of `color-contrast-checker.js`.

Modelling conventions.

* The browser is the environment. `Env` holds what the script cannot control: the page origin,
  the outcome of every `fetch`, and which Cache Storage calls reject.
* Cache Storage is a list of named buckets, each a list of request/response pairs in insertion
  order. The calls follow the Cache interface as the script uses it, without options: a request
  whose method is not GET is never matched, never stored and never deleted; a GET matches an
  entry with the same URL (up to the fragment) whose `Vary` header, if any, names only fields
  on which the two requests agree.
* An `async function` is a function from the world before the call to a settled promise and the
  world after it. The world records the buckets and the trace of browser calls made so far.
* `console.*` logging has no effect on any result and is left out.
-/

namespace StaffRota

/-! ## Strings -/

/-- JavaScript `String.prototype.startsWith`. -/
def startsWith (s p : String) : Bool :=
  p.data.isPrefixOf s.data

/-- JavaScript `String.prototype.includes`. -/
def includes (s t : String) : Bool :=
  s.data.tails.any (fun u => t.data.isPrefixOf u)

/-- A string with its ASCII letters in lower case. -/
def lowerCase (s : String) : String :=
  String.mk (s.data.map Char.toLower)

/-- The combined value of the headers called `name` in a header list: their values in order,
joined by a comma and a space; `none` when the list has no such header. Header names are
compared without regard to case. -/
def combinedValue (headers : List (String × String)) (name : String) : Option String :=
  match (headers.filter (fun h => lowerCase h.1 == lowerCase name)).map (fun h => h.2) with
  | [] => none
  | values => some (String.intercalate ", " values)

/-- Truthiness of a JavaScript value that is a string or `undefined`: the empty string and
`undefined` are falsy. -/
def truthy (value : Option String) : Bool :=
  match value with
  | some text => text != ""
  | none => false

/-! ## Requests and responses -/

/-- The fields of `new URL(request.url)` that the script reads. -/
structure URL where
  href : String
  origin : String
  pathname : String
deriving DecidableEq, Repr

/-- A `Request`. `headers` is the header list that `request.headers` shows. -/
structure Request where
  url : URL
  method : String
  mode : String
  destination : String
  headers : List (String × String)
deriving DecidableEq, Repr

/-- A `Response`. -/
structure Response where
  body : String
  status : Nat
  statusText : String
  headers : List (String × String)
deriving DecidableEq, Repr

/-- The getter `response.ok`: the status is in the range 200 to 299. -/
def Response.ok (r : Response) : Bool :=
  decide (200 ≤ r.status) && decide (r.status ≤ 299)

/-- The call `response.headers.get(name)`. -/
def Response.header (r : Response) (name : String) : Option String :=
  combinedValue r.headers name

/-! ## Cache Storage -/

/-- One bucket: request/response pairs in insertion order. -/
abbrev Cache := List (Request × Response)

/-- All buckets of the origin, by name, in creation order. -/
abbrev CacheStorage := List (String × Cache)

/-- A URL without its fragment: what the Cache interface compares. -/
def urlKey (href : String) : String :=
  String.mk (href.data.takeWhile (fun c => c != '#'))

/-- Split a text at its commas. -/
def splitAtCommas : List Char → List (List Char)
  | [] => [[]]
  | c :: rest =>
    match splitAtCommas rest with
    | [] => [[c]]
    | first :: others => if c == ',' then [] :: first :: others else (c :: first) :: others

/-- Strip spaces and tabs from both ends. -/
def stripWhitespace (text : List Char) : List Char :=
  ((text.dropWhile (fun c => c == ' ' || c == '\t')).reverse.dropWhile
    (fun c => c == ' ' || c == '\t')).reverse

/-- The field names listed by the `Vary` header of a response. -/
def varyFields (response : Response) : List String :=
  match combinedValue response.headers "Vary" with
  | none => []
  | some value => (splitAtCommas value.data).map (fun field => String.mk (stripWhitespace field))

/-- The test "request matches cached item" of the Cache interface, called without options on a
query that is a GET: the URLs are equal up to the fragment, and for every field that the `Vary`
header of the cached response names, the field is not `*` and the cached request and the query
carry the same value. -/
def matchesCachedItem (requestQuery : Request) (cached : Request × Response) : Bool :=
  urlKey requestQuery.url.href == urlKey cached.1.url.href &&
  (varyFields cached.2).all (fun field =>
    field != "*" &&
    combinedValue cached.1.headers field == combinedValue requestQuery.headers field)

/-- The lookup `cache.match(request)` on one bucket: a request whose method is not GET matches
no entry; a GET gets the response of the first entry it matches. -/
def Cache.matchRequest (c : Cache) (request : Request) : Option Response :=
  if request.method == "GET" then (c.find? (matchesCachedItem request)).map (fun e => e.2)
  else none

/-- The write `cache.put(request, response)` of a GET on one bucket: the entries that the request
matches are removed and the new entry is added at the end. -/
def Cache.put (c : Cache) (request : Request) (response : Response) : Cache :=
  c.filter (fun e => !matchesCachedItem request e) ++ [(request, response)]

/-- The removal `cache.delete(request)` of a GET on one bucket: the entries that the request
matches are removed. -/
def Cache.delete (c : Cache) (request : Request) : Cache :=
  c.filter (fun e => !matchesCachedItem request e)

/-- The listing `cache.keys()` on one bucket. -/
def Cache.keys (c : Cache) : List Request :=
  c.map (fun e => e.1)

/-- The response that one bucket holds under a URL: the one stored last, when the bucket has
several entries for the URL. -/
def Cache.matchUrl (c : Cache) (href : String) : Option Response :=
  ((c.filter (fun e => urlKey e.1.url.href == urlKey href)).getLast?).map (fun e => e.2)

/-- The response that the first bucket with an entry for a URL holds under it. -/
def CacheStorage.matchUrl (cs : CacheStorage) (href : String) : Option Response :=
  cs.findSome? (fun b => Cache.matchUrl b.2 href)

/-- The lookup `caches.match(request)`: the buckets are asked in creation order and the first
one in which `cache.match(request)` finds an entry answers. -/
def CacheStorage.matchRequest (cs : CacheStorage) (request : Request) : Option Response :=
  cs.findSome? (fun b => Cache.matchRequest b.2 request)

/-- The contents of the bucket called `name` (empty when there is none). -/
def CacheStorage.bucket (cs : CacheStorage) (name : String) : Cache :=
  ((cs.find? (fun b => b.1 == name)).map (fun b => b.2)).getD []

/-- The effect of `caches.open(name)`: the bucket is created when it does not exist. -/
def CacheStorage.open (cs : CacheStorage) (name : String) : CacheStorage :=
  if cs.any (fun b => b.1 == name) then cs else cs ++ [(name, [])]

/-- Apply `f` to the bucket called `name`. -/
def CacheStorage.update (cs : CacheStorage) (name : String) (f : Cache → Cache) : CacheStorage :=
  cs.map (fun b => if b.1 == name then (b.1, f b.2) else b)

/-! ## The environment and the world -/

/-- What the browser decides. `network request = none` means that `fetch(request)` rejects. The
`...Rejects` fields say which Cache Storage calls reject: `keysRejects` and `deleteRejects` are
about one bucket (`cache.keys()`, `cache.delete(request)`), `storageKeysRejects` and
`storageDeleteRejects` about the storage as a whole (`caches.keys()`, `caches.delete(name)`).
`claimRejects` says whether `clients.claim()` rejects. -/
structure Env where
  origin : String
  network : Request → Option Response
  matchRejects : String → Bool
  openRejects : String → Bool
  keysRejects : String → Bool
  putRejects : String → Request → Response → Bool
  deleteRejects : String → Request → Bool
  storageKeysRejects : Bool
  storageDeleteRejects : String → Bool
  claimRejects : Bool

/-- A call into the browser. -/
inductive Effect where
  | fetch (request : Request)
  | cachesMatch (href : String)
  | cachesOpen (name : String)
  | cacheKeys (name : String)
  | cachePut (name : String) (request : Request) (response : Response)
  | cacheDelete (name : String) (request : Request)
  | cachesKeys
  | cachesDelete (name : String)
  | skipWaiting
  | clientsClaim
  | postMessage (port : Nat) (message : List (String × String))
deriving DecidableEq, Repr

/-- The buckets, and the browser calls made so far in order. -/
structure World where
  caches : CacheStorage
  trace : List Effect
deriving DecidableEq, Repr

/-- A settled promise. -/
inductive Settled (α : Type) where
  | resolved (value : α)
  | rejected (reason : String)
deriving DecidableEq, Repr

/-- An asynchronous computation, run to completion. -/
def Async (α : Type) : Type :=
  World → Settled α × World

namespace Async

/-- The statement `return value`. -/
def unit {α : Type} (value : α) : Async α :=
  fun w => (Settled.resolved value, w)

/-- The statement `throw reason`. -/
def throw {α : Type} (reason : String) : Async α :=
  fun w => (Settled.rejected reason, w)

/-- The sequence `await p` followed by `k`. A rejection skips `k`. -/
def andThen {α β : Type} (p : Async α) (k : α → Async β) : Async β :=
  fun w =>
    match p w with
    | (Settled.resolved value, w1) => k value w1
    | (Settled.rejected reason, w1) => (Settled.rejected reason, w1)

/-- The statement `try { body } catch (error) { handler }`. -/
def tryCatch {α : Type} (body : Async α) (handler : String → Async α) : Async α :=
  fun w =>
    match body w with
    | (Settled.resolved value, w1) => (Settled.resolved value, w1)
    | (Settled.rejected reason, w1) => handler reason w1

/-- A promise that is started and not awaited: its effects happen, its outcome is dropped. -/
def detach {α : Type} (p : Async α) : Async Unit :=
  fun w => (Settled.resolved (), (p w).2)

/-- The combinator `Promise.all` over promises that were started in list order: every one of
them runs; the result is the list of their values, or the first rejection in list order. -/
def all {α : Type} : List (Async α) → Async (List α)
  | [] => unit []
  | p :: ps =>
    fun w =>
      match p w with
      | (Settled.resolved value, w1) =>
        match all ps w1 with
        | (Settled.resolved values, w2) => (Settled.resolved (value :: values), w2)
        | (Settled.rejected reason, w2) => (Settled.rejected reason, w2)
      | (Settled.rejected reason, w1) => (Settled.rejected reason, (all ps w1).2)

end Async

instance : Monad Async where
  pure := Async.unit
  bind := Async.andThen

instance : MonadExcept String Async where
  throw := Async.throw
  tryCatch := Async.tryCatch

/-- Append a browser call to the trace. -/
def World.log (w : World) (e : Effect) : World :=
  { w with trace := w.trace ++ [e] }

/-- The browser call `fetch(request)`. -/
def fetch (env : Env) (request : Request) : Async Response :=
  fun w =>
    match env.network request with
    | some response => (Settled.resolved response, w.log (Effect.fetch request))
    | none => (Settled.rejected "TypeError: Failed to fetch", w.log (Effect.fetch request))

/-- The browser call `caches.match(request)`; the trace records the URL that was looked up. -/
def cachesMatch (env : Env) (request : Request) : Async (Option Response) :=
  fun w =>
    if env.matchRejects request.url.href then
      (Settled.rejected "caches.match rejected", w.log (Effect.cachesMatch request.url.href))
    else
      (Settled.resolved (w.caches.matchRequest request),
        w.log (Effect.cachesMatch request.url.href))

/-- The browser call `caches.open(name)`; the handle of a bucket is its name. -/
def cachesOpen (env : Env) (name : String) : Async String :=
  fun w =>
    if env.openRejects name then
      (Settled.rejected "caches.open rejected", w.log (Effect.cachesOpen name))
    else
      (Settled.resolved name, { caches := w.caches.open name,
                                trace := w.trace ++ [Effect.cachesOpen name] })

/-- The browser call `cache.put(request, response)`. It rejects with a `TypeError` for every
request whose method is not GET; for a GET the browser may still reject (a response that cannot
be stored, the quota), which is `env.putRejects`. -/
def cachePut (env : Env) (cache : String) (request : Request) (response : Response) :
    Async Unit :=
  fun w =>
    if request.method != "GET" then
      (Settled.rejected "TypeError: Request method is unsupported",
        w.log (Effect.cachePut cache request response))
    else if env.putRejects cache request response then
      (Settled.rejected "cache.put rejected", w.log (Effect.cachePut cache request response))
    else
      (Settled.resolved (),
        { caches := w.caches.update cache (fun c => c.put request response),
          trace := w.trace ++ [Effect.cachePut cache request response] })

/-- The browser call `cache.keys()`. -/
def cacheKeys (env : Env) (cache : String) : Async (List Request) :=
  fun w =>
    if env.keysRejects cache then
      (Settled.rejected "cache.keys rejected", w.log (Effect.cacheKeys cache))
    else
      (Settled.resolved (w.caches.bucket cache).keys, w.log (Effect.cacheKeys cache))

/-- The browser call `cache.delete(request)`. For a request whose method is not GET it removes
nothing and resolves to `false`. -/
def cacheDelete (env : Env) (cache : String) (request : Request) : Async Bool :=
  fun w =>
    if env.deleteRejects cache request then
      (Settled.rejected "cache.delete rejected", w.log (Effect.cacheDelete cache request))
    else if request.method != "GET" then
      (Settled.resolved false, w.log (Effect.cacheDelete cache request))
    else
      (Settled.resolved ((w.caches.bucket cache).any (matchesCachedItem request)),
        { caches := w.caches.update cache (fun c => c.delete request),
          trace := w.trace ++ [Effect.cacheDelete cache request] })

/-- The browser call `caches.keys()`: the names of all buckets. -/
def cachesKeys (env : Env) : Async (List String) :=
  fun w =>
    if env.storageKeysRejects then
      (Settled.rejected "caches.keys rejected", w.log Effect.cachesKeys)
    else
      (Settled.resolved (w.caches.map (fun b => b.1)), w.log Effect.cachesKeys)

/-- The browser call `caches.delete(name)`: the bucket of that name is removed; the value says
whether there was one. -/
def cachesDelete (env : Env) (name : String) : Async Bool :=
  fun w =>
    if env.storageDeleteRejects name then
      (Settled.rejected "caches.delete rejected", w.log (Effect.cachesDelete name))
    else
      (Settled.resolved (w.caches.any (fun b => b.1 == name)),
        { caches := w.caches.filter (fun b => b.1 != name),
          trace := w.trace ++ [Effect.cachesDelete name] })

/-- The browser call `self.skipWaiting()`. -/
def skipWaiting : Async Unit :=
  fun w => (Settled.resolved (), w.log Effect.skipWaiting)

/-- The browser call `self.clients.claim()`. -/
def clientsClaim (env : Env) : Async Unit :=
  fun w =>
    if env.claimRejects then
      (Settled.rejected "clients.claim rejected", w.log Effect.clientsClaim)
    else
      (Settled.resolved (), w.log Effect.clientsClaim)

/-- The call `port.postMessage(message)` on a message port. -/
def postMessage (port : Nat) (message : List (String × String)) : Async Unit :=
  fun w => (Settled.resolved (), w.log (Effect.postMessage port message))

/-! ## Version 1.7 -/

namespace V17

def CACHE_VERSION : String := "staff-rota-v1.7"

def STATIC_CACHE : String := CACHE_VERSION ++ "-static"

def DYNAMIC_CACHE : String := CACHE_VERSION ++ "-dynamic"

/-- URLs that always go to the network. -/
def NETWORK_ONLY : List String :=
  ["/admin/", "/api/live-updates/", "/api/notifications/", "/login/", "/logout/",
   "/search/", "/search/advanced/", "/staff-search-rota/", "/overtime/"]

/-- URLs that get the network-first strategy. -/
def NETWORK_FIRST : List String :=
  ["/api/", "/rota/api/", "/leave/api/", "/staff/api/", "/rota-view/"]

def isNetworkOnly (pathname : String) : Bool :=
  NETWORK_ONLY.any (fun pattern => startsWith pathname pattern)

def isNetworkFirst (pathname : String) : Bool :=
  NETWORK_FIRST.any (fun pattern => startsWith pathname pattern)

def isCDNAsset (url : String) : Bool :=
  includes url "googleapis.com" ||
  includes url "jsdelivr.net" ||
  includes url "cdnjs.cloudflare.com" ||
  includes url "bootstrapcdn.com"

/-- The three functions the fetch listener can hand to `event.respondWith`. -/
inductive Strategy where
  | networkOnly
  | networkFirst
  | cacheFirst
deriving DecidableEq, Repr

/-- The `fetch` event listener: the strategy whose promise is given to `event.respondWith`, or
`none` when the listener returns without responding. -/
def fetchListener (locationOrigin : String) (request : Request) : Option Strategy :=
  let url := request.url
  if url.origin != locationOrigin && !isCDNAsset url.href then
    none
  else if isNetworkOnly url.pathname then
    some Strategy.networkOnly
  else if isNetworkFirst url.pathname then
    some Strategy.networkFirst
  else
    some Strategy.cacheFirst

/-- The response built in the `catch` of `cacheFirst`. -/
def offlineTextResponse : Response :=
  { body := "Offline - Content not available"
    status := 503
    statusText := "Service Unavailable"
    headers := [("Content-Type", "text/plain")] }

/-- Cache-first: try the cache, fall back to the network, cache the response. -/
def cacheFirst (env : Env) (request : Request) : Async Response :=
  try
    let cachedResponse ← cachesMatch env request
    match cachedResponse with
    | some cached => return cached
    | none =>
      let networkResponse ← fetch env request
      if networkResponse.ok then
        let cache ← cachesOpen env DYNAMIC_CACHE
        Async.detach (cachePut env cache request networkResponse)
      return networkResponse
  catch _ =>
    return offlineTextResponse

/-- The result of `JSON.stringify` on a flat object whose keys and values are strings that need
no escaping. -/
def jsonStringify (fields : List (String × String)) : String :=
  "\x7b" ++ String.intercalate "," (fields.map (fun f => "\"" ++ f.1 ++ "\":\"" ++ f.2 ++ "\""))
    ++ "\x7d"

/-- The response built in the `catch` of `networkFirst` when the cache has no entry either. -/
def offlineJsonResponse : Response :=
  { body := jsonStringify
      [("error", "Offline"),
       ("message", "Unable to fetch data. Please check your connection.")]
    status := 503
    statusText := "Service Unavailable"
    headers := [("Content-Type", "application/json")] }

/-- Network-first: try the network, fall back to the cache if offline. -/
def networkFirst (env : Env) (request : Request) : Async Response :=
  try
    let networkResponse ← fetch env request
    if networkResponse.ok && request.method == "GET" then
      let cache ← cachesOpen env DYNAMIC_CACHE
      Async.detach (cachePut env cache request networkResponse)
    return networkResponse
  catch _ =>
    let cachedResponse ← cachesMatch env request
    match cachedResponse with
    | some cached => return cached
    | none => return offlineJsonResponse

/-- The response built in the `catch` of `networkOnly`. Its init object names no headers, so
the only header is the content type that a string body brings. -/
def networkFailedResponse : Response :=
  { body := "Network request failed"
    status := 503
    statusText := "Service Unavailable"
    headers := [("Content-Type", "text/plain;charset=UTF-8")] }

/-- Network-only: always fetch from the network, never cache. -/
def networkOnly (env : Env) (request : Request) : Async Response :=
  try
    let response ← fetch env request
    return response
  catch _ =>
    return networkFailedResponse

/-- The promise that `event.respondWith` receives for a strategy. -/
def Strategy.run (env : Env) (request : Request) : Strategy → Async Response
  | Strategy.networkOnly => V17.networkOnly env request
  | Strategy.networkFirst => V17.networkFirst env request
  | Strategy.cacheFirst => V17.cacheFirst env request

/-- The `fetch` event as a whole: the listener picks a strategy and the strategy runs. `none`
means that the service worker did not respond and the browser handles the request itself. -/
def onFetch (env : Env) (request : Request) (w : World) : Option (Settled Response × World) :=
  (fetchListener env.origin request).map (fun strategy => strategy.run env request w)

/-- The loop `for (const request of pending) { try { ... } catch (error) { ... } }` shared by the
two sync functions: replay the request, then delete it from the bucket. -/
def replayEach (env : Env) (cache : String) (pending : List Request) : Async Unit := do
  for request in pending do
    try
      let _ ← fetch env request
      let _ ← cacheDelete env cache request
    catch _ =>
      pure ()

/-- Sync queued leave requests. -/
def syncLeaveRequests (env : Env) : Async Unit :=
  try
    let cache ← cachesOpen env DYNAMIC_CACHE
    let requests ← cacheKeys env cache
    let pendingRequests := requests.filter
      (fun req => includes req.url.href "/leave/request/" && req.method == "POST")
    replayEach env cache pendingRequests
  catch error =>
    throw error

/-- Sync queued shift swaps. -/
def syncShiftSwaps (env : Env) : Async Unit :=
  try
    let cache ← cachesOpen env DYNAMIC_CACHE
    let requests ← cacheKeys env cache
    let pendingSwaps := requests.filter
      (fun req => includes req.url.href "/shift/swap/" && req.method == "POST")
    replayEach env cache pendingSwaps
  catch error =>
    throw error

/-- The `sync` event listener: the promise given to `event.waitUntil` for the tag of the event,
run to completion. -/
def syncListener (env : Env) (tag : String) : Async Unit := do
  if tag == "sync-leave-requests" then
    syncLeaveRequests env
  if tag == "sync-shift-swaps" then
    syncShiftSwaps env

end V17

/-! ## Version 1.7: activation and the message channel -/

namespace V17

/-- The promise the `activate` listener gives to `event.waitUntil`: delete old buckets, then
claim the clients. -/
def activateListener (env : Env) : Async Unit := do
  let cacheNames ← cachesKeys env
  let _ ← Async.all
    ((cacheNames.filter (fun cacheName =>
        startsWith cacheName "staff-rota-" &&
        cacheName != STATIC_CACHE &&
        cacheName != DYNAMIC_CACHE)).map
      (fun cacheName => cachesDelete env cacheName))
  clientsClaim env

/-- The value of `event.data` as the listener reads it: its `type` property, `none` when there
is no such property or it is not a string. -/
structure MessageData where
  type : Option String
deriving DecidableEq, Repr

/-- A `message` event. `data` is `none` when the message is `null` or `undefined`; `ports` are
the transferred message ports. -/
structure MessageEvent where
  data : Option MessageData
  ports : List Nat
deriving DecidableEq, Repr

/-- The promise the `message` listener gives to `event.waitUntil` on `CLEAR_CACHE`. -/
def clearAllCaches (env : Env) : Async (List Bool) := do
  let cacheNames ← cachesKeys env
  Async.all (cacheNames.map (fun cacheName => cachesDelete env cacheName))

/-- The `message` listener. A rejection stands for the listener throwing a `TypeError`, which
happens when `event.data` is `null` or when `GET_VERSION` comes without a port. The promises of
`skipWaiting` and of `CLEAR_CACHE` are not awaited by the listener; they are run to completion
here. -/
def messageListener (env : Env) (event : MessageEvent) : Async Unit :=
  match event.data with
  | none => throw "TypeError: event.data is null"
  | some data => do
    if data.type == some "SKIP_WAITING" then
      Async.detach skipWaiting
    if data.type == some "CLEAR_CACHE" then
      Async.detach (clearAllCaches env)
    if data.type == some "GET_VERSION" then
      match event.ports with
      | [] => throw "TypeError: event.ports[0] is undefined"
      | port :: _ => postMessage port [("version", CACHE_VERSION)]

end V17

/-! ## Version 1.4

The copy under `staticfiles/` interleaves fragments of two revisions and is not a script that
runs. The part embedded here is the one function that is whole, the first `cacheFirst`, with the
constants it reads. -/

namespace V14

def CACHE_VERSION : String := "staff-rota-v1.4"

def DYNAMIC_CACHE : String := CACHE_VERSION ++ "-dynamic"

def OFFLINE_PAGE : String := "/offline/"

/-- The request that `caches.match(OFFLINE_PAGE)` builds from the string, resolved against the
origin of the script: a GET. -/
def offlinePageRequest (origin : String) : Request :=
  { url := { href := origin ++ OFFLINE_PAGE, origin := origin, pathname := OFFLINE_PAGE }
    method := "GET"
    mode := "cors"
    destination := ""
    headers := [] }

/-- The response built at the end of the `catch` of `cacheFirst`. -/
def offlineTextResponse : Response :=
  { body := "Offline - Content not available"
    status := 503
    statusText := "Service Unavailable"
    headers := [("Content-Type", "text/plain")] }

/-- Cache-first: try the cache, fall back to the network, cache the response. -/
def cacheFirst (env : Env) (request : Request) : Async Response :=
  try
    let cachedResponse ← cachesMatch env request
    match cachedResponse with
    | some cached => return cached
    | none =>
      let networkResponse ← fetch env request
      if networkResponse.ok then
        let cache ← cachesOpen env DYNAMIC_CACHE
        Async.detach
          (Async.tryCatch (cachePut env cache request networkResponse) (fun _ => pure ()))
      return networkResponse
  catch _ =>
    let offlinePage ←
      if request.mode == "navigate" || request.destination == "document" then
        cachesMatch env (offlinePageRequest env.origin)
      else
        pure none
    match offlinePage with
    | some page => return page
    | none => return offlineTextResponse

end V14

/-! ## Skeleton loader (`skeleton-loader.js`)

A container is the element that `document.querySelector(selector)` returns, `none` when it
returns `null`. Template names are looked up among the own properties of `templates`. -/

namespace SkeletonLoader

/-- The template `widget`. -/
def widgetTemplate : String :=
  String.intercalate "\n"
    ["",
     "            <div class=\"skeleton-widget\" aria-busy=\"true\" role=\"status\" aria-label=\"Loading widget\">",
     "                <div class=\"skeleton-widget-header\">",
     "                    <div class=\"skeleton skeleton-text skeleton-text-50\"></div>",
     "                    <div class=\"skeleton skeleton-badge\"></div>",
     "                </div>",
     "                <div class=\"skeleton skeleton-widget-stat\"></div>",
     "                <div class=\"skeleton skeleton-text skeleton-text-75\"></div>",
     "                <div class=\"skeleton skeleton-text skeleton-text-90\"></div>",
     "                <div class=\"skeleton skeleton-text skeleton-text-50\"></div>",
     "            </div>",
     "        "]

/-- The template `card`. -/
def cardTemplate : String :=
  String.intercalate "\n"
    ["",
     "            <div class=\"skeleton-card\" aria-busy=\"true\" role=\"status\" aria-label=\"Loading content\">",
     "                <div class=\"skeleton-card-header\">",
     "                    <div class=\"skeleton skeleton-avatar\"></div>",
     "                    <div style=\"flex: 1;\">",
     "                        <div class=\"skeleton skeleton-text skeleton-text-50\"></div>",
     "                        <div class=\"skeleton skeleton-text skeleton-text-sm skeleton-text-75\"></div>",
     "                    </div>",
     "                </div>",
     "                <div class=\"skeleton-card-body\">",
     "                    <div class=\"skeleton skeleton-text skeleton-text-full\"></div>",
     "                    <div class=\"skeleton skeleton-text skeleton-text-90\"></div>",
     "                    <div class=\"skeleton skeleton-text skeleton-text-75\"></div>",
     "                </div>",
     "            </div>",
     "        "]

/-- The template `stat-card`. -/
def statCardTemplate : String :=
  String.intercalate "\n"
    ["",
     "            <div class=\"skeleton-stat-card\" aria-busy=\"true\" role=\"status\" aria-label=\"Loading statistics\">",
     "                <div class=\"skeleton skeleton-text skeleton-text-sm skeleton-text-50\"></div>",
     "                <div class=\"skeleton skeleton-heading\"></div>",
     "                <div class=\"skeleton skeleton-text skeleton-text-75\"></div>",
     "            </div>",
     "        "]

/-- The template `shift-card`. -/
def shiftCardTemplate : String :=
  String.intercalate "\n"
    ["",
     "            <div class=\"skeleton-shift-card\" aria-busy=\"true\" role=\"status\" aria-label=\"Loading shift\">",
     "                <div class=\"skeleton-shift-header\">",
     "                    <div class=\"skeleton skeleton-text skeleton-text-50\"></div>",
     "                    <div class=\"skeleton skeleton-badge\"></div>",
     "                </div>",
     "                <div class=\"skeleton-shift-body\">",
     "                    <div class=\"skeleton skeleton-text skeleton-text-75\"></div>",
     "                    <div class=\"skeleton skeleton-text skeleton-text-90\"></div>",
     "                    <div class=\"skeleton skeleton-text skeleton-text-50\"></div>",
     "                </div>",
     "            </div>",
     "        "]

/-- The template `chart`. -/
def chartTemplate : String :=
  String.intercalate "\n"
    ["",
     "            <div class=\"skeleton skeleton-chart\" aria-busy=\"true\" role=\"status\" aria-label=\"Loading chart\">",
     "                <div class=\"skeleton skeleton-text skeleton-text-50\" style=\"position: absolute; top: 16px; left: 16px;\"></div>",
     "            </div>",
     "        "]

/-- The template `text`. -/
def textTemplate : String :=
  String.intercalate "\n"
    ["",
     "            <div aria-busy=\"true\" role=\"status\" aria-label=\"Loading\">",
     "                <div class=\"skeleton skeleton-text skeleton-text-full\"></div>",
     "                <div class=\"skeleton skeleton-text skeleton-text-90\"></div>",
     "                <div class=\"skeleton skeleton-text skeleton-text-75\"></div>",
     "            </div>",
     "        "]

/-- One row of the template `table`. -/
def tableRowTemplate : String :=
  String.intercalate "\n"
    ["",
     "                    <tr class=\"skeleton-table-row\">",
     "                        <td><div class=\"skeleton skeleton-table-cell skeleton-text-75\"></div></td>",
     "                        <td><div class=\"skeleton skeleton-table-cell skeleton-text-90\"></div></td>",
     "                        <td><div class=\"skeleton skeleton-table-cell skeleton-text-50\"></div></td>",
     "                        <td><div class=\"skeleton skeleton-table-cell skeleton-text-25\"></div></td>",
     "                    </tr>",
     "                "]

/-- The part of the template `table` before the rows. -/
def tableHead : String :=
  String.intercalate "\n"
    ["",
     "                <div class=\"table-responsive\" aria-busy=\"true\" role=\"status\" aria-label=\"Loading table\">",
     "                    <table class=\"skeleton-table table\">",
     "                        <thead class=\"skeleton-table-header\">",
     "                            <tr>",
     "                                <th><div class=\"skeleton skeleton-text\"></div></th>",
     "                                <th><div class=\"skeleton skeleton-text\"></div></th>",
     "                                <th><div class=\"skeleton skeleton-text\"></div></th>",
     "                                <th><div class=\"skeleton skeleton-text\"></div></th>",
     "                            </tr>",
     "                        </thead>",
     "                        <tbody>"]

/-- The part of the template `table` after the rows. -/
def tableFoot : String :=
  String.intercalate "\n"
    ["</tbody>",
     "                    </table>",
     "                </div>",
     "            "]

/-- One item of the template `list`. -/
def listItemTemplate : String :=
  String.intercalate "\n"
    ["",
     "                    <div class=\"skeleton-list-item\">",
     "                        <div class=\"skeleton skeleton-avatar-sm\"></div>",
     "                        <div class=\"skeleton-list-item-content\">",
     "                            <div class=\"skeleton skeleton-text skeleton-text-75\"></div>",
     "                            <div class=\"skeleton skeleton-text skeleton-text-sm skeleton-text-50\"></div>",
     "                        </div>",
     "                        <div class=\"skeleton skeleton-badge\"></div>",
     "                    </div>",
     "                "]

/-- The part of the template `list` before the items. -/
def listHead : String :=
  String.intercalate "\n"
    ["<div class=\"skeleton-list\" aria-busy=\"true\" role=\"status\" aria-label=\"Loading list\">"]

/-- The part of the template `list` after the items. -/
def listFoot : String :=
  String.intercalate "\n"
    ["</div>"]

/-- The function `templates.table`. -/
def tableTemplate (rows : Nat) : String :=
  tableHead ++ String.join (List.replicate rows tableRowTemplate) ++ tableFoot

/-- The function `templates.list`. -/
def listTemplate (items : Nat) : String :=
  listHead ++ String.join (List.replicate items listItemTemplate) ++ listFoot

/-- A member of `templates`: a string, or a function of a count. -/
inductive Template where
  | markup (html : String)
  | generator (build : Nat → String)

/-- The lookup `this.templates[type]`. -/
def templates (type : String) : Option Template :=
  if type == "widget" then some (Template.markup widgetTemplate)
  else if type == "card" then some (Template.markup cardTemplate)
  else if type == "table" then some (Template.generator tableTemplate)
  else if type == "list" then some (Template.generator listTemplate)
  else if type == "stat-card" then some (Template.markup statCardTemplate)
  else if type == "shift-card" then some (Template.markup shiftCardTemplate)
  else if type == "chart" then some (Template.markup chartTemplate)
  else if type == "text" then some (Template.markup textTemplate)
  else none

/-- The state of a container that the loader reads and writes: its markup, the attribute behind
`dataset.skeletonOriginal` (`none` when absent) and its class list. -/
structure Container where
  innerHTML : String
  skeletonOriginal : Option String
  classList : List String
deriving DecidableEq, Repr

/-- The `options` argument of `show`. -/
structure Options where
  rows : Option Nat
  items : Option Nat
deriving DecidableEq, Repr

/-- The expression `options.rows || options.items || 5`. -/
def count (options : Options) : Nat :=
  match options.rows with
  | some (rows + 1) => rows + 1
  | _ =>
    match options.items with
    | some (items + 1) => items + 1
    | _ => 5

/-- The method `classList.add(token)`. -/
def classListAdd (classList : List String) (token : String) : List String :=
  if classList.contains token then classList else classList ++ [token]

/-- The method `classList.remove(token)`. -/
def classListRemove (classList : List String) (token : String) : List String :=
  classList.filter (fun c => c != token)

/-- Show the skeleton loading state in a container. -/
def «show» (container : Option Container) (type : String) (options : Options) :
    Option Container :=
  match container with
  | none => none
  | some container =>
    -- Store original content
    let skeletonOriginal :=
      if !truthy container.skeletonOriginal then some container.innerHTML
      else container.skeletonOriginal
    -- Get template; templates that are functions are called with the count
    let template : Option String :=
      match templates type with
      | some (Template.generator build) => some (build (count options))
      | some (Template.markup html) => some html
      | none => none
    -- Insert skeleton
    some { innerHTML := if truthy template then template.getD "" else textTemplate
           skeletonOriginal := skeletonOriginal
           classList := classListAdd container.classList "skeleton-active" }

/-- Hide the skeleton and restore the original content. -/
def hide (container : Option Container) : Option Container :=
  match container with
  | none => none
  | some container =>
    if truthy container.skeletonOriginal then
      some { innerHTML := container.skeletonOriginal.getD ""
             skeletonOriginal := none
             classList := classListRemove container.classList "skeleton-active" }
    else
      some { container with
             classList := classListRemove container.classList "skeleton-active" }

end SkeletonLoader

/-! ## Form auto-save (`form-autosave.js`)

Conventions. A form enters `getFormData` as the entry list of `new FormData(form)`, with string
values. The object `data` is the list of its own properties in insertion order; field names that
shadow members of `Object.prototype` are outside the model. `JSON.stringify` and `JSON.parse`
belong to the browser and are parameters. A form enters `setFormData` as the list of its named
controls; assigning to `checked`, to `selected` or to the `value` of a text control stores what
is assigned, assigning to the `value` of a `select` selects the option of that value, and the
`value` of a `select` reads as the value of its first selected option. -/

namespace FormAutoSave

/-- A property value of the data object: one string, or an array of strings. -/
inductive FieldValue where
  | single (value : String)
  | multiple (values : List String)
deriving DecidableEq, Repr

/-- The data object: its own properties in insertion order. -/
abbrev FormDataObject := List (String × FieldValue)

/-- The read `data[key]`, `none` for `undefined`. -/
def FormDataObject.get (data : FormDataObject) (key : String) : Option FieldValue :=
  (data.find? (fun e => e.1 == key)).map (fun e => e.2)

/-- The write `data[key] = value`: an existing property keeps its place, a new one is added at
the end. -/
def FormDataObject.set (data : FormDataObject) (key : String) (value : FieldValue) :
    FormDataObject :=
  if data.any (fun e => e.1 == key) then
    data.map (fun e => if e.1 == key then (key, value) else e)
  else
    data ++ [(key, value)]

/-- One turn of the loop in `getFormData`. -/
def addEntry (excludeFields : List String) (data : FormDataObject) (entry : String × String) :
    FormDataObject :=
  if !excludeFields.contains entry.1 then
    -- Handle multiple values (checkboxes, multi-select)
    match data.get entry.1 with
    | some (FieldValue.multiple values) =>
      data.set entry.1 (FieldValue.multiple (values ++ [entry.2]))
    | some (FieldValue.single first) =>
      if first != "" then
        data.set entry.1 (FieldValue.multiple [first, entry.2])
      else
        data.set entry.1 (FieldValue.single entry.2)
    | none =>
      data.set entry.1 (FieldValue.single entry.2)
  else
    data

/-- Get form data as object. -/
def getFormData (entries : List (String × String)) (excludeFields : List String) :
    FormDataObject :=
  entries.foldl (addEntry excludeFields) []

/-- The configuration of an instance: the `defaults`, the storage key, and the callbacks. A
callback is given by whether it returns normally (`true`) or throws (`false`). -/
structure Config where
  storagePrefix : String
  storageKey : String
  saveInterval : Nat
  indicatorId : String
  excludeFields : List String
  debug : Bool
  onSave : Option (FormDataObject → Bool)
  onRestore : Option (FormDataObject → Bool)

/-- The configuration `{ ...defaults, storageKey }` that `init` builds when no option overrides
a default. -/
def defaultConfig (storageKey : String) : Config :=
  { storagePrefix := "staff_rota_form_"
    storageKey := storageKey
    saveInterval := 3000
    indicatorId := "autosave-indicator"
    excludeFields := ["csrfmiddlewaretoken", "submit"]
    debug := false
    onSave := none
    onRestore := none }

/-- The object that `save` stringifies and `restore` destructures. A property that is absent is
`none`. -/
structure SavedEntry where
  data : Option FormDataObject
  timestamp : Option String
  url : Option String
deriving DecidableEq, Repr

/-- What the browser provides: the clock, `JSON.stringify` on the saved object, `JSON.parse`
followed by the destructuring (`none` when either throws), and which `localStorage` calls
throw. -/
structure Browser where
  now : String
  stringify : SavedEntry → String
  parse : String → Option SavedEntry
  setItemThrows : String → String → Bool
  getItemThrows : String → Bool

/-- The page state around an instance: `window.location.pathname`, the content of
`localStorage`, the flag `isDirty`, and the last status given to `updateIndicator`. -/
structure Page where
  pathname : String
  localStorage : List (String × String)
  isDirty : Bool
  indicator : Option String
deriving DecidableEq, Repr

/-- The read `localStorage.getItem(key)`, `none` for `null`. -/
def getItem (storage : List (String × String)) (key : String) : Option String :=
  (storage.find? (fun e => e.1 == key)).map (fun e => e.2)

/-- The write `localStorage.setItem(key, value)`. -/
def setItem (storage : List (String × String)) (key value : String) : List (String × String) :=
  if storage.any (fun e => e.1 == key) then
    storage.map (fun e => if e.1 == key then (key, value) else e)
  else
    storage ++ [(key, value)]

/-- Save form data to localStorage. -/
def save (browser : Browser) (config : Config) (entries : List (String × String))
    (page : Page) : Page :=
  let storageKey := config.storagePrefix ++ config.storageKey
  let formData := getFormData entries config.excludeFields
  let value := browser.stringify
    { data := some formData, timestamp := some browser.now, url := some page.pathname }
  -- try
  if browser.setItemThrows storageKey value then
    -- catch
    { page with indicator := some "error" }
  else
    let saved : Page :=
      { page with
        localStorage := setItem page.localStorage storageKey value
        isDirty := false
        indicator := some "saved" }
    match config.onSave with
    | some callback => if callback formData then saved else { saved with indicator := some "error" }
    | none => saved

/-- An option of a `select` control. -/
structure SelectOption where
  value : String
  selected : Bool
deriving DecidableEq, Repr

/-- A named control of a form. -/
structure Field where
  name : String
  tagName : String
  type : String
  multiple : Bool
  value : String
  checked : Bool
  options : List SelectOption
deriving DecidableEq, Repr

/-- The named controls of a form, in tree order. -/
abbrev Form := List Field

/-- The string that an assignment to `value` stores: `String(value)`. -/
def FieldValue.toText (value : FieldValue) : String :=
  match value with
  | FieldValue.single text => text
  | FieldValue.multiple values => String.intercalate "," values

/-- The test `values.includes(text)` after `Array.isArray(value) ? value : [value]`. -/
def FieldValue.includes (value : FieldValue) (text : String) : Bool :=
  match value with
  | FieldValue.single only => only == text
  | FieldValue.multiple values => values.contains text

/-- Select the first option whose value is `text` and no other; `found` says that this option is
already behind. -/
def selectFirst (text : String) (found : Bool) : List SelectOption → List SelectOption
  | [] => []
  | option :: rest =>
    if !found && option.value == text then
      { option with selected := true } :: selectFirst text true rest
    else
      { option with selected := false } :: selectFirst text found rest

/-- The assignment `field.value = text` on a `select` that is not `multiple`: the first option
with that value becomes the selected one; without such an option none is selected and the value
reads as the empty string. -/
def selectValue (field : Field) (text : String) : Field :=
  { field with
    options := selectFirst text false field.options
    value := if field.options.any (fun option => option.value == text) then text else "" }

/-- The body of the loop in `setFormData` when `form.elements[key]` is one control. -/
def setControl (field : Field) (value : FieldValue) : Field :=
  if field.type == "checkbox" || field.type == "radio" then
    match value with
    | FieldValue.multiple values =>
      -- Handle checkbox groups
      { field with checked := values.contains field.value }
    | FieldValue.single text =>
      { field with checked := text == field.value || text == "on" }
  else if field.tagName == "SELECT" && field.multiple then
    -- Handle multi-select
    let options := field.options.map (fun option =>
      { option with selected := value.includes option.value })
    { field with
      options := options
      value := ((options.find? (fun option => option.selected)).map
        (fun option => option.value)).getD "" }
  else if field.tagName == "SELECT" then
    -- Handle text, textarea, select, etc.
    selectValue field value.toText
  else
    -- Handle text, textarea, select, etc.
    { field with value := value.toText }

/-- Check the first radio button named `key` whose value is `text` and uncheck the other radio
buttons of that name; `found` says that the first one is already behind. -/
def checkRadio (key text : String) (found : Bool) : List Field → List Field
  | [] => []
  | f :: rest =>
    if f.name == key && f.type == "radio" then
      if !found && f.value == text then
        { f with checked := true } :: checkRadio key text true rest
      else
        { f with checked := false } :: checkRadio key text found rest
    else
      f :: checkRadio key text found rest

/-- The assignment `field.value = value` when `form.elements[key]` is a `RadioNodeList` (several
controls share the name): the first radio button with that value becomes the checked one of
the group; without such a button nothing changes. -/
def setRadioNodeList (form : Form) (key : String) (text : String) : Form :=
  if form.any (fun f => f.name == key && f.type == "radio" && f.value == text) then
    checkRadio key text false form
  else
    form

/-- One turn of the loop in `setFormData`. -/
def setEntry (form : Form) (entry : String × FieldValue) : Form :=
  match form.filter (fun f => f.name == entry.1) with
  | [] => form
  | [_] => form.map (fun f => if f.name == entry.1 then setControl f entry.2 else f)
  | _ => setRadioNodeList form entry.1 entry.2.toText

/-- Set form data from object. -/
def setFormData (form : Form) (data : FormDataObject) : Form :=
  data.foldl setEntry form

/-- Restore form data from localStorage: the returned flag and the form afterwards. The restore
notification that is shown on success touches no form control and is left out. -/
def restore (browser : Browser) (config : Config) (form : Form) (page : Page) : Bool × Form :=
  let storageKey := config.storagePrefix ++ config.storageKey
  -- try
  if browser.getItemThrows storageKey then
    (false, form)
  else
    match getItem page.localStorage storageKey with
    | none => (false, form)
    | some saved =>
      if saved == "" then
        (false, form)
      else
        match browser.parse saved with
        | none => (false, form)
        | some entry =>
          -- Only restore if on same URL
          if truthy entry.url && entry.url != some page.pathname then
            (false, form)
          else
            match entry.data with
            | none => (false, form)
            | some data =>
              let restored := setFormData form data
              match config.onRestore with
              | some callback => if callback data then (true, restored) else (false, restored)
              | none => (true, restored)

end FormAutoSave

/-! ## Colour contrast checker (`color-contrast-checker.js`)

Conventions. A JavaScript number is `NaN` or a value: a rational or one of the two infinities
(every finite double is a rational; the two zeros are one value). Comparisons are exact. The
results of `+`, `*`, `/` and `Math.pow` on values, the value of a decimal literal, the number of
a parsed integer and `toFixed` belong to the host's floating-point arithmetic and are
parameters; an operation with a `NaN` operand yields `NaN`. The literals `255`, `3.0`, `4.5`
and `7.0` are doubles and stand for themselves. Strings are lists of characters. -/

namespace ColorContrastChecker

/-- A number that is not `NaN`. -/
inductive Value where
  | negInf
  | finite (x : ℚ)
  | posInf
deriving DecidableEq

/-- The order of the values. -/
def Value.le : Value → Value → Bool
  | Value.negInf, _ => true
  | _, Value.posInf => true
  | Value.finite x, Value.finite y => decide (x ≤ y)
  | _, _ => false

/-- A JavaScript number. -/
inductive JSNumber where
  | nan
  | value (v : Value)
deriving DecidableEq

/-- The host's floating-point arithmetic on operands that are not `NaN`, the value of a decimal
literal given by its source text, the number for a parsed integer, and `toFixed(2)`. -/
structure Arithmetic where
  add : Value → Value → JSNumber
  mul : Value → Value → JSNumber
  div : Value → Value → JSNumber
  pow : Value → Value → JSNumber
  literal : String → Value
  ofInteger : ℤ → Value
  toFixed2 : JSNumber → String

/-- The operator `+` on numbers. -/
def JSNumber.add (a : Arithmetic) : JSNumber → JSNumber → JSNumber
  | JSNumber.value x, JSNumber.value y => a.add x y
  | _, _ => JSNumber.nan

/-- The operator `*` on numbers. -/
def JSNumber.mul (a : Arithmetic) : JSNumber → JSNumber → JSNumber
  | JSNumber.value x, JSNumber.value y => a.mul x y
  | _, _ => JSNumber.nan

/-- The operator `/` on numbers. -/
def JSNumber.div (a : Arithmetic) : JSNumber → JSNumber → JSNumber
  | JSNumber.value x, JSNumber.value y => a.div x y
  | _, _ => JSNumber.nan

/-- The function `Math.pow` with an exponent that is not `NaN` and not zero. -/
def JSNumber.pow (a : Arithmetic) : JSNumber → JSNumber → JSNumber
  | JSNumber.value x, JSNumber.value y => a.pow x y
  | _, _ => JSNumber.nan

/-- The operator `<=`: false when an operand is `NaN`. -/
def JSNumber.le : JSNumber → JSNumber → Bool
  | JSNumber.value x, JSNumber.value y => x.le y
  | _, _ => false

/-- The operator `<`: false when an operand is `NaN`. -/
def JSNumber.lt : JSNumber → JSNumber → Bool
  | JSNumber.value x, JSNumber.value y => !y.le x
  | _, _ => false

/-- The operator `>=`: false when an operand is `NaN`. -/
def JSNumber.ge (x y : JSNumber) : Bool :=
  JSNumber.le y x

/-- The operator `>`: false when an operand is `NaN`. -/
def JSNumber.gt (x y : JSNumber) : Bool :=
  JSNumber.lt y x

/-- The function `Math.max` of two numbers: `NaN` when one of them is. -/
def JSNumber.max : JSNumber → JSNumber → JSNumber
  | JSNumber.value x, JSNumber.value y => if x.le y then JSNumber.value y else JSNumber.value x
  | _, _ => JSNumber.nan

/-- The function `Math.min` of two numbers: `NaN` when one of them is. -/
def JSNumber.min : JSNumber → JSNumber → JSNumber
  | JSNumber.value x, JSNumber.value y => if x.le y then JSNumber.value x else JSNumber.value y
  | _, _ => JSNumber.nan

/-- White space and line terminators, which `parseInt` skips at the start. -/
def isWhiteSpace (c : Char) : Bool :=
  [0x9, 0xA, 0xB, 0xC, 0xD, 0x20, 0xA0, 0x1680, 0x2028, 0x2029, 0x202F, 0x205F, 0x3000,
    0xFEFF].contains c.toNat ||
  (decide (0x2000 ≤ c.toNat) && decide (c.toNat ≤ 0x200A))

/-- The value of a character as a digit (`0` to `9`, then the letters in either case). -/
def digitValue (c : Char) : Option Nat :=
  if decide ('0' ≤ c) && decide (c ≤ '9') then some (c.toNat - '0'.toNat)
  else if decide ('a' ≤ c) && decide (c ≤ 'z') then some (c.toNat - 'a'.toNat + 10)
  else if decide ('A' ≤ c) && decide (c ≤ 'Z') then some (c.toNat - 'A'.toNat + 10)
  else none

/-- The digits of the radix at the start of a text, as values. -/
def leadingDigits (radix : Nat) : List Char → List Nat
  | [] => []
  | c :: cs =>
    match digitValue c with
    | some d => if d < radix then d :: leadingDigits radix cs else []
    | none => []

/-- The global function `parseInt(string, radix)`; radix `0` stands for a radix that is not
given. The result is the mathematical integer, `none` for `NaN`. -/
def parseInt (string : String) (radix : Nat) : Option ℤ :=
  let trimmed := string.data.dropWhile isWhiteSpace
  let negative := trimmed.head? == some '-'
  let unsigned :=
    if trimmed.head? == some '-' || trimmed.head? == some '+' then trimmed.drop 1 else trimmed
  if radix != 0 && (radix < 2 || radix > 36) then
    none
  else
    let stripPrefix := radix == 0 || radix == 16
    let hasPrefix :=
      stripPrefix && (unsigned.take 2 == ['0', 'x'] || unsigned.take 2 == ['0', 'X'])
    let base := if hasPrefix then 16 else if radix == 0 then 10 else radix
    let digits := leadingDigits base (if hasPrefix then unsigned.drop 2 else unsigned)
    if digits.isEmpty then
      none
    else
      let magnitude : ℤ := (digits.foldl (fun n d => n * base + d) 0 : Nat)
      some (if negative then -magnitude else magnitude)

/-- The result of `parseInt` as a number. -/
def toNumber (a : Arithmetic) (parsed : Option ℤ) : JSNumber :=
  match parsed with
  | some n => JSNumber.value (a.ofInteger n)
  | none => JSNumber.nan

/-- JavaScript `String.prototype.substr(start, length)` for a start that is not negative. -/
def substr (s : String) (start length : Nat) : String :=
  String.mk ((s.data.drop start).take length)

/-- The first occurrence of `pattern` replaced, on character lists. -/
def replaceFirstChars (pattern replacement : List Char) : List Char → List Char
  | [] => if pattern.isEmpty then replacement else []
  | c :: cs =>
    if pattern.isPrefixOf (c :: cs) then replacement ++ (c :: cs).drop pattern.length
    else c :: replaceFirstChars pattern replacement cs

/-- JavaScript `String.prototype.replace(pattern, replacement)` with a string pattern. -/
def replace (s pattern replacement : String) : String :=
  String.mk (replaceFirstChars pattern.data replacement.data s.data)

/-- The maximal runs of decimal digits in a text; `current` is the run being read. -/
def digitRunsFrom (current : List Char) : List Char → List String
  | [] => if current.isEmpty then [] else [String.mk current]
  | c :: cs =>
    if c.isDigit then digitRunsFrom (current ++ [c]) cs
    else if current.isEmpty then digitRunsFrom [] cs
    else String.mk current :: digitRunsFrom [] cs

/-- The call `color.match(/\d+/g)`; the empty list stands for `null`. -/
def matchDigits (color : String) : List String :=
  digitRunsFrom [] color.data

/-- The element `matches[i]` given to `parseInt`; a missing element is `undefined`. -/
def parseElement (found : List String) (i : Nat) : Option ℤ :=
  match found.get? i with
  | some text => parseInt text 0
  | none => parseInt "undefined" 0

/-- Gamma correction of one channel:
`c <= 0.03928 ? c / 12.92 : Math.pow((c + 0.055) / 1.055, 2.4)`. -/
def gammaCorrect (a : Arithmetic) (c : JSNumber) : JSNumber :=
  if JSNumber.le c (JSNumber.value (a.literal "0.03928")) then
    JSNumber.div a c (JSNumber.value (a.literal "12.92"))
  else
    JSNumber.pow a
      (JSNumber.div a (JSNumber.add a c (JSNumber.value (a.literal "0.055")))
        (JSNumber.value (a.literal "1.055")))
      (JSNumber.value (a.literal "2.4"))

/-- The last line of `getLuminance`:
`0.2126 * rsRGB + 0.7152 * gsRGB + 0.0722 * bsRGB` of the gamma-corrected channels. -/
def weightedSum (a : Arithmetic) (r g b : JSNumber) : JSNumber :=
  JSNumber.add a
    (JSNumber.add a
      (JSNumber.mul a (JSNumber.value (a.literal "0.2126")) (gammaCorrect a r))
      (JSNumber.mul a (JSNumber.value (a.literal "0.7152")) (gammaCorrect a g)))
    (JSNumber.mul a (JSNumber.value (a.literal "0.0722")) (gammaCorrect a b))

/-- The number `255`. -/
def n255 : JSNumber :=
  JSNumber.value (Value.finite 255)

/-- Calculate the relative luminance of a colour. An error stands for the `TypeError` thrown
when the text starts with `rgb` and holds no digit. -/
def getLuminance (a : Arithmetic) (color : String) : Except String JSNumber :=
  if startsWith color "#" then
    let hex := replace color "#" ""
    let r := JSNumber.div a (toNumber a (parseInt (substr hex 0 2) 16)) n255
    let g := JSNumber.div a (toNumber a (parseInt (substr hex 2 2) 16)) n255
    let b := JSNumber.div a (toNumber a (parseInt (substr hex 4 2) 16)) n255
    Except.ok (weightedSum a r g b)
  else if startsWith color "rgb" then
    match matchDigits color with
    | [] => Except.error "TypeError: matches is null"
    | found =>
      let r := JSNumber.div a (toNumber a (parseElement found 0)) n255
      let g := JSNumber.div a (toNumber a (parseElement found 1)) n255
      let b := JSNumber.div a (toNumber a (parseElement found 2)) n255
      Except.ok (weightedSum a r g b)
  else
    Except.ok (JSNumber.value (Value.finite 0))

/-- Calculate the contrast ratio between two colours. -/
def getContrastRatio (a : Arithmetic) (foreground background : String) :
    Except String JSNumber := do
  let l1 ← getLuminance a foreground
  let l2 ← getLuminance a background
  let lighter := JSNumber.max l1 l2
  let darker := JSNumber.min l1 l2
  return JSNumber.div a
    (JSNumber.add a lighter (JSNumber.value (a.literal "0.05")))
    (JSNumber.add a darker (JSNumber.value (a.literal "0.05")))

/-- Get the recommendation for improving the contrast. -/
def getRecommendation (a : Arithmetic) (foreground background : String) :
    Except String String := do
  let fgLum ← getLuminance a foreground
  let bgLum ← getLuminance a background
  if JSNumber.gt fgLum bgLum then
    return "Lighten foreground or darken background"
  else
    return "Darken foreground or lighten background"

/-- The object that `checkCompliance` returns; `recommendation` is `none` for `null`. -/
structure Compliance where
  ratio : String
  passAA : Bool
  passAAA : Bool
  level : String
  recommendation : Option String
deriving DecidableEq, Repr

/-- The threshold `isLargeText ? 3.0 : 4.5`. -/
def aaThreshold (isLargeText : Bool) : JSNumber :=
  JSNumber.value (Value.finite (if isLargeText then 3 else 9 / 2))

/-- The threshold `isLargeText ? 4.5 : 7.0`. -/
def aaaThreshold (isLargeText : Bool) : JSNumber :=
  JSNumber.value (Value.finite (if isLargeText then 9 / 2 else 7))

/-- Check whether a colour combination meets the WCAG standards. -/
def checkCompliance (a : Arithmetic) (foreground background : String) (isLargeText : Bool) :
    Except String Compliance := do
  let ratio ← getContrastRatio a foreground background
  let recommendation ←
    if JSNumber.lt ratio (aaThreshold isLargeText) then
      (getRecommendation a foreground background).map some
    else
      pure none
  return { ratio := a.toFixed2 ratio
           passAA := JSNumber.ge ratio (aaThreshold isLargeText)
           passAAA := JSNumber.ge ratio (aaaThreshold isLargeText)
           level :=
             if JSNumber.ge ratio (aaaThreshold isLargeText) then "AAA"
             else if JSNumber.ge ratio (aaThreshold isLargeText) then "AA"
             else "Fail"
           recommendation := recommendation }

end ColorContrastChecker

/-! ## Reading traces and buckets -/

/-- The requests that were fetched, in order. -/
def fetchedRequests (trace : List Effect) : List Request :=
  trace.filterMap (fun e =>
    match e with
    | Effect.fetch request => some request
    | _ => none)

/-- Every key of every bucket is a GET. Cache Storage is always in such a state: entries come
from `cache.put` (and `cache.add`), which reject every other request. -/
def CacheStorage.GetOnly (cs : CacheStorage) : Prop :=
  ∀ b ∈ cs, ∀ e ∈ b.2, e.1.method = "GET"

instance (cs : CacheStorage) : Decidable (CacheStorage.GetOnly cs) := by
  unfold CacheStorage.GetOnly
  infer_instance

/-! ## The data object as the specification words it -/

/-- The value the specification gives to a name whose entries carry `values`, in form order: no
property without an entry, the value itself for one entry, the array of all values for
several. -/
def specFieldValue (values : List String) : Option FormAutoSave.FieldValue :=
  match values with
  | [] => none
  | [value] => some (FormAutoSave.FieldValue.single value)
  | _ => some (FormAutoSave.FieldValue.multiple values)

/-! ## The routing table as the specification words it -/

/-- The network-only prefixes named by the specification. -/
def specNetworkOnlyPrefixes : List String :=
  ["/admin/", "/login/", "/logout/", "/search/", "/api/live-updates/", "/api/notifications/",
   "/staff-search-rota/", "/overtime/"]

/-- The network-first prefixes named by the specification. -/
def specNetworkFirstPrefixes : List String :=
  ["/api/", "/rota/api/", "/leave/api/", "/staff/api/", "/rota-view/"]

/-! ## Concrete inputs -/

/-- The origin the examples are served from. -/
def exampleOrigin : String := "https://rota.example"

/-- A same-origin request for `pathname`. -/
def sameOriginRequest (pathname method mode : String) : Request :=
  { url := { href := exampleOrigin ++ pathname, origin := exampleOrigin, pathname := pathname }
    method := method
    mode := mode
    destination := ""
    headers := [] }

/-- A request for a live-update endpoint, which is under `/api/` as well. -/
def liveUpdateRequest : Request :=
  sameOriginRequest "/api/live-updates/x" "GET" "cors"

/-- A request for a static asset. -/
def stylesheetRequest : Request :=
  sameOriginRequest "/static/css/design-system.css" "GET" "no-cors"

/-- A request for an API endpoint. -/
def apiRequest : Request :=
  sameOriginRequest "/api/shifts/" "GET" "cors"

/-- A response the server sends now. -/
def freshResponse : Response :=
  { body := "fresh", status := 200, statusText := "OK", headers := [] }

/-- A response that was cached earlier. -/
def staleResponse : Response :=
  { body := "stale", status := 200, statusText := "OK", headers := [] }

/-- An environment in which no Cache Storage call rejects and no fetch times out. -/
def healthyEnv (network : Request → Option Response) : Env :=
  { origin := exampleOrigin
    network := network
    matchRejects := fun _ => false
    openRejects := fun _ => false
    keysRejects := fun _ => false
    putRejects := fun _ _ _ => false
    deleteRejects := fun _ _ => false
    storageKeysRejects := false
    storageDeleteRejects := fun _ => false
    claimRejects := false }

/-- The network answers every request. -/
def onlineEnv : Env :=
  healthyEnv (fun _ => some freshResponse)

/-- The network is down. -/
def offlineEnv : Env :=
  healthyEnv (fun _ => none)

/-- No buckets, nothing called yet. -/
def emptyWorld : World :=
  { caches := [], trace := [] }

/-- The version 1.7 dynamic bucket holds an older copy of the stylesheet. -/
def stylesheetCachedWorld : World :=
  { caches := [(V17.DYNAMIC_CACHE, [(stylesheetRequest, staleResponse)])], trace := [] }

/-- The network answers, but `caches.open` rejects. -/
def openFailsEnv : Env :=
  { onlineEnv with openRejects := fun _ => true }

/-- The network answers and buckets open, but `cache.put` rejects. -/
def putFailsEnv : Env :=
  { onlineEnv with putRejects := fun _ _ _ => true }

/-- A navigation to the home page. -/
def homeRequest : Request :=
  { url := { href := exampleOrigin ++ "/", origin := exampleOrigin, pathname := "/" }
    method := "GET"
    mode := "navigate"
    destination := "document"
    headers := [("accept", "text/html,application/xhtml+xml")] }

/-- The version 1.7 dynamic bucket holds an older copy of the home page. -/
def homeCachedWorld : World :=
  { caches := [(V17.DYNAMIC_CACHE, [(homeRequest, staleResponse)])], trace := [] }

/-- A leave request as the page submits it: a POST. -/
def leavePost : Request :=
  sameOriginRequest "/leave/request/1" "POST" "cors"

/-- The page under the URL of the leave request: a GET. -/
def leavePage : Request :=
  sameOriginRequest "/leave/request/1" "GET" "navigate"

/-- The version 1.7 dynamic bucket holds a copy of the page under the URL of the leave
request. -/
def leavePageCachedWorld : World :=
  { caches := [(V17.DYNAMIC_CACHE, [(leavePage, staleResponse)])], trace := [] }

/-- A POST to an API endpoint. -/
def apiPostRequest : Request :=
  sameOriginRequest "/api/shifts/" "POST" "cors"

/-- The version 1.7 dynamic bucket holds an older answer to the GET of the API endpoint. -/
def apiCachedWorld : World :=
  { caches := [(V17.DYNAMIC_CACHE, [(apiRequest, staleResponse)])], trace := [] }

/-- The GET of the API endpoint as a script sends it, asking for JSON. -/
def apiJsonRequest : Request :=
  { apiRequest with headers := [("accept", "application/json")] }

/-- The GET of the API endpoint as the address bar sends it, asking for HTML. -/
def apiHtmlRequest : Request :=
  { apiRequest with headers := [("accept", "text/html")] }

/-- An answer that depends on the `Accept` header of the request, and says so. -/
def variedResponse : Response :=
  { body := "[]", status := 200, statusText := "OK"
    headers := [("Content-Type", "application/json"), ("Vary", "Accept")] }

/-- The version 1.7 dynamic bucket holds the answer to the script's GET of the API endpoint. -/
def apiVariedCachedWorld : World :=
  { caches := [(V17.DYNAMIC_CACHE, [(apiJsonRequest, variedResponse)])], trace := [] }

/-- Buckets of an older version, of the current version, and of another application. -/
def mixedBucketsWorld : World :=
  { caches :=
      [("staff-rota-v1.6-static", []),
       ("staff-rota-v1.6-dynamic", [(stylesheetRequest, staleResponse)]),
       (V17.STATIC_CACHE, []),
       (V17.DYNAMIC_CACHE, [(stylesheetRequest, staleResponse)]),
       ("other-app-v1", [])]
    trace := [] }

/-- A `GET_VERSION` message with one port. -/
def getVersionEvent : V17.MessageEvent :=
  { data := some { type := some "GET_VERSION" }, ports := [7] }

/-- A `CLEAR_CACHE` message. -/
def clearCacheEvent : V17.MessageEvent :=
  { data := some { type := some "CLEAR_CACHE" }, ports := [] }

/-- The CDN domains named by the specification. -/
def specCdnDomains : List String :=
  ["googleapis.com", "jsdelivr.net", "cdnjs.cloudflare.com", "bootstrapcdn.com"]

/-- JavaScript `String.prototype.endsWith`. -/
def endsWith (s t : String) : Bool :=
  t.data.reverse.isPrefixOf s.data.reverse

/-- The reading of "hosted on a domain" used for the specification: the host of the origin is
the domain itself or one of its subdomains. -/
def hostedOn (origin domain : String) : Bool :=
  endsWith origin ("//" ++ domain) || endsWith origin ("." ++ domain)

/-- A script on a foreign host whose path merely mentions a CDN domain. -/
def lookalikeRequest : Request :=
  { url := { href := "https://evil.example/lib/jsdelivr.net/tracker.js"
             origin := "https://evil.example"
             pathname := "/lib/jsdelivr.net/tracker.js" }
    method := "GET"
    mode := "no-cors"
    destination := "script"
    headers := [] }

/-- A container without content, as a page leaves it for content that is loaded later. -/
def emptyContainer : SkeletonLoader.Container :=
  { innerHTML := "", skeletonOriginal := none, classList := ["card-body"] }

/-- A container with content. -/
def filledContainer : SkeletonLoader.Container :=
  { innerHTML := "<p>Rota for week 12</p>", skeletonOriginal := none, classList := ["card-body"] }

/-- No sizes given to `show`. -/
def noOptions : SkeletonLoader.Options :=
  { rows := none, items := none }

/-- The form of the leave request page: one text area. -/
def leaveForm : FormAutoSave.Form :=
  [{ name := "reason", tagName := "TEXTAREA", type := "textarea", multiple := false,
     value := "", checked := false, options := [] }]

/-- A draft whose recorded path is the empty string. -/
def pathlessDraft : FormAutoSave.SavedEntry :=
  { data := some [("reason", FormAutoSave.FieldValue.single "Holiday")]
    timestamp := some "2025-12-01T10:00:00.000Z"
    url := some "" }

/-- A draft recorded on the leave request page. -/
def leaveDraft : FormAutoSave.SavedEntry :=
  { data := some [("reason", FormAutoSave.FieldValue.single "Holiday")]
    timestamp := some "2025-12-01T10:00:00.000Z"
    url := some "/leave/request/" }

/-- A browser for the examples: its parser knows two stored texts, its serialiser writes the
properties of the data object as `name=value` joined by `&`, and `localStorage` never throws. -/
def exampleBrowser : FormAutoSave.Browser :=
  { now := "2025-12-01T10:00:00.000Z"
    stringify := fun entry =>
      String.intercalate "&"
        ((entry.data.getD []).map (fun e => e.1 ++ "=" ++ e.2.toText))
    parse := fun text =>
      if text == "pathless-draft" then some pathlessDraft
      else if text == "leave-draft" then some leaveDraft
      else none
    setItemThrows := fun _ _ => false
    getItemThrows := fun _ => false }

/-- The leave request page with the pathless draft in `localStorage`. -/
def pathlessDraftPage : FormAutoSave.Page :=
  { pathname := "/leave/request/"
    localStorage := [("staff_rota_form_leave", "pathless-draft")]
    isDirty := false
    indicator := none }

/-- Another page, with the draft of the leave request page in `localStorage`. -/
def otherPage : FormAutoSave.Page :=
  { pathname := "/shift/swap/"
    localStorage := [("staff_rota_form_leave", "leave-draft")]
    isDirty := false
    indicator := none }

/-- The entries of a leave form as one session submits them. -/
def leaveEntries : List (String × String) :=
  [("csrfmiddlewaretoken", "token-of-monday"), ("reason", "Holiday"), ("submit", "Send")]

/-- The same form in another session: only the token and the button text differ. -/
def leaveEntriesLater : List (String × String) :=
  [("csrfmiddlewaretoken", "token-of-tuesday"), ("reason", "Holiday"), ("submit", "Save")]

/-! ## Routing (version 1.7) -/

theorem startsWith_trans (s p q : String) (hq : startsWith p q = true)
    (hp : startsWith s p = true) : startsWith s q = true := by
  unfold startsWith at *
  rw [ List.isPrefixOf_iff_prefix] at *
  exact List.IsPrefix.trans hq hp

theorem V17.isNetworkOnly_of_spec (pathname : String)
    (h : ∃ p ∈ specNetworkOnlyPrefixes, startsWith pathname p = true) :
    V17.isNetworkOnly pathname = true := by
  obtain ⟨p, hp, hs⟩ := h
  unfold V17.isNetworkOnly
  rw [List.any_eq_true]
  refine ⟨p, ?_, hs⟩
  simp only [specNetworkOnlyPrefixes, List.mem_cons, List.mem_singleton] at hp
  simp only [V17.NETWORK_ONLY, List.mem_cons, List.mem_singleton]
  tauto

theorem V17.isNetworkOnly_iff_spec (pathname : String) :
    V17.isNetworkOnly pathname = true ↔
      ∃ p ∈ specNetworkOnlyPrefixes, startsWith pathname p = true := by
  constructor
  · intro h
    unfold V17.isNetworkOnly at h
    rw [List.any_eq_true] at h
    obtain ⟨p, hp, hs⟩ := h
    simp only [V17.NETWORK_ONLY, List.mem_cons, List.mem_singleton, List.not_mem_nil,
      or_false] at hp
    by_cases hadv : p = "/search/advanced/"
    · subst hadv
      exact ⟨"/search/", by decide, startsWith_trans _ _ _ (by decide) hs⟩
    · refine ⟨p, ?_, hs⟩
      simp only [specNetworkOnlyPrefixes, List.mem_cons, List.mem_singleton, List.not_mem_nil,
        or_false]
      tauto
  · exact V17.isNetworkOnly_of_spec pathname

/-- C1. In the version 1.7 fetch listener, every request that the listener answers (same origin,
or a CDN asset) and whose pathname starts with one of the network-only prefixes of the
specification is given to `networkOnly`, whatever else the pathname starts with. -/
theorem C1_networkOnly_prefix_wins (locationOrigin : String) (request : Request)
    (hint : request.url.origin = locationOrigin ∨ V17.isCDNAsset request.url.href = true)
    (hpre : ∃ p ∈ specNetworkOnlyPrefixes, startsWith request.url.pathname p = true) :
    V17.fetchListener locationOrigin request = some V17.Strategy.networkOnly := by
  have hno := V17.isNetworkOnly_of_spec _ hpre
  rcases hint with h | h <;> simp [V17.fetchListener, h, hno]

/-- C1 at `/api/live-updates/x`, which also starts with the network-first prefix `/api/`. -/
theorem C1_networkOnly_prefix_wins_witness :
    V17.isNetworkFirst liveUpdateRequest.url.pathname = true ∧
    V17.fetchListener exampleOrigin liveUpdateRequest = some V17.Strategy.networkOnly :=
  ⟨by decide,
   C1_networkOnly_prefix_wins exampleOrigin liveUpdateRequest (Or.inl (by decide))
     ⟨"/api/live-updates/", by decide, by decide⟩⟩

/-- C2. In the version 1.7 fetch listener, every request that the listener answers gets exactly
one strategy; when its pathname starts with no network-only prefix, that strategy is
`networkFirst` if the pathname starts with a network-first prefix and `cacheFirst` otherwise. -/
theorem C2_networkFirst_else_cacheFirst (locationOrigin : String) (request : Request)
    (hint : request.url.origin = locationOrigin ∨ V17.isCDNAsset request.url.href = true) :
    (∃! strategy, V17.fetchListener locationOrigin request = some strategy) ∧
    ((∀ p ∈ specNetworkOnlyPrefixes, startsWith request.url.pathname p = false) →
      V17.fetchListener locationOrigin request =
        some (if specNetworkFirstPrefixes.any (fun p => startsWith request.url.pathname p)
              then V17.Strategy.networkFirst else V17.Strategy.cacheFirst)) := by
  have hskip : (request.url.origin != locationOrigin && !V17.isCDNAsset request.url.href)
      = false := by
    rcases hint with h | h <;> simp [h]
  constructor
  · have hsome : ∃ strategy, V17.fetchListener locationOrigin request = some strategy := by
      unfold V17.fetchListener
      simp only [hskip]
      by_cases h1 : V17.isNetworkOnly request.url.pathname = true
      · exact ⟨V17.Strategy.networkOnly, by simp [h1]⟩
      · by_cases h2 : V17.isNetworkFirst request.url.pathname = true
        · exact ⟨V17.Strategy.networkFirst, by simp [h1, h2]⟩
        · exact ⟨V17.Strategy.cacheFirst, by simp [h1, h2]⟩
    obtain ⟨strategy, hs⟩ := hsome
    exact ⟨strategy, hs, fun other ho => by rw [hs] at ho; exact (Option.some.inj ho).symm⟩
  · intro hno
    have h1 : V17.isNetworkOnly request.url.pathname = false := by
      cases hc : V17.isNetworkOnly request.url.pathname with
      | false => rfl
      | true =>
        obtain ⟨p, hp, hs⟩ := (V17.isNetworkOnly_iff_spec _).mp hc
        rw [hno p hp] at hs
        exact absurd hs (by decide)
    have h2 : specNetworkFirstPrefixes.any (fun p => startsWith request.url.pathname p)
        = V17.isNetworkFirst request.url.pathname := rfl
    unfold V17.fetchListener
    simp only [hskip, h1, h2]
    cases V17.isNetworkFirst request.url.pathname <;> simp

/-- C2 at a stylesheet, which is given to `cacheFirst`. -/
theorem C2_networkFirst_else_cacheFirst_witness :
    V17.fetchListener exampleOrigin stylesheetRequest = some V17.Strategy.cacheFirst :=
  ((C2_networkFirst_else_cacheFirst exampleOrigin stylesheetRequest (Or.inl (by decide))).2
    (by decide)).trans (by decide)

/-! ## The three strategies (version 1.7) -/

theorem Async.andThen_unit {α : Type} (p : Async α) : Async.andThen p Async.unit = p := by
  funext w
  unfold Async.andThen Async.unit
  split <;> simp [*]

theorem Async.tryCatch_unit_ne_rejected {α : Type} (body : Async α) (value : α) (w : World)
    (reason : String) :
    (Async.tryCatch body (fun _ => Async.unit value) w).1 ≠ Settled.rejected reason := by
  unfold Async.tryCatch Async.unit
  split <;> simp

/-- For a request that is not a GET, `caches.match` finds nothing, whatever the buckets hold. -/
theorem CacheStorage.matchRequest_of_not_get (cs : CacheStorage) (request : Request)
    (h : request.method ≠ "GET") :
    cs.matchRequest request = none := by
  unfold CacheStorage.matchRequest Cache.matchRequest
  induction cs with
  | nil => rfl
  | cons b rest ih => simp [List.findSome?_cons, h] at ih ⊢

theorem Cache.matchRequest_miss (c : Cache) (request : Request)
    (h : c.matchUrl request.url.href = none) :
    c.matchRequest request = none := by
  unfold Cache.matchRequest
  split
  · have hnil : c.filter (fun e => urlKey e.1.url.href == urlKey request.url.href) = [] := by
      unfold Cache.matchUrl at h
      simpa [List.getLast?_eq_none_iff] using h
    have hfind : c.find? (matchesCachedItem request) = none := by
      rw [List.find?_eq_none]
      intro e he hm
      have hk : (urlKey e.1.url.href == urlKey request.url.href) = true := by
        unfold matchesCachedItem at hm
        simp only [Bool.and_eq_true, beq_iff_eq] at hm
        simp [hm.1]
      have hmem : e ∈ c.filter (fun e => urlKey e.1.url.href == urlKey request.url.href) :=
        List.mem_filter.mpr ⟨he, hk⟩
      rw [hnil] at hmem
      simp at hmem
    simp [hfind]
  · rfl

/-- When no bucket has an entry for the URL, `caches.match` finds nothing. -/
theorem CacheStorage.matchRequest_eq_none (cs : CacheStorage) (request : Request)
    (h : cs.matchUrl request.url.href = none) :
    cs.matchRequest request = none := by
  unfold CacheStorage.matchUrl at h
  unfold CacheStorage.matchRequest
  induction cs with
  | nil => rfl
  | cons b rest ih =>
    rw [List.findSome?_cons] at h ⊢
    cases hb : Cache.matchUrl b.2 request.url.href with
    | some r =>
      rw [hb] at h
      simp at h
    | none =>
      rw [hb] at h
      rw [Cache.matchRequest_miss b.2 request hb]
      exact ih h

/-- C3. When `caches.open` and `caches.match` themselves do not reject, `networkFirst` resolves
to the network response whenever `fetch` resolves, whatever the status; when `fetch` rejects, to
the response that `caches.match(request)` finds, if it finds one; and otherwise to a 503
response with `Content-Type: application/json` whose body is the JSON text of an object with the
`error` field `Offline`. A request that is not a GET has no cached response, so with the network
down it gets the 503 response whatever the buckets hold. -/
theorem C3_networkFirst_result (env : Env) (request : Request) (w : World)
    (hopen : env.openRejects V17.DYNAMIC_CACHE = false)
    (hmatch : env.matchRejects request.url.href = false) :
    (V17.networkFirst env request w).1 =
      (match env.network request with
       | some networkResponse => Settled.resolved networkResponse
       | none =>
         match w.caches.matchRequest request with
         | some cached => Settled.resolved cached
         | none => Settled.resolved V17.offlineJsonResponse) ∧
    (request.method ≠ "GET" → env.network request = none →
      (V17.networkFirst env request w).1 = Settled.resolved V17.offlineJsonResponse) ∧
    V17.offlineJsonResponse.status = 503 ∧
    V17.offlineJsonResponse.header "Content-Type" = some "application/json" ∧
    V17.offlineJsonResponse.body =
      "\x7b\"error\":\"Offline\",\"message\":\"Unable to fetch data. Please check your connection.\"\x7d" := by
  have hresult : (V17.networkFirst env request w).1 =
      (match env.network request with
       | some networkResponse => Settled.resolved networkResponse
       | none =>
         match w.caches.matchRequest request with
         | some cached => Settled.resolved cached
         | none => Settled.resolved V17.offlineJsonResponse) := by
    cases hn : env.network request with
    | none =>
      cases hc : w.caches.matchRequest request <;>
      simp [V17.networkFirst, tryCatch, tryCatchThe, MonadExceptOf.tryCatch,
        MonadExcept.tryCatch, Async.tryCatch, bind, Async.andThen, pure, Async.unit, fetch,
        cachesMatch, World.log, hn, hc, hmatch]
    | some r =>
      cases hok : (r.ok && request.method == "GET") <;>
      simp [V17.networkFirst, tryCatch, tryCatchThe, MonadExceptOf.tryCatch,
        MonadExcept.tryCatch, Async.tryCatch, bind, Async.andThen, pure, Async.unit, fetch,
        cachesOpen, Async.detach, World.log, hn, hok, hopen]
  refine ⟨hresult, ?_, rfl, by decide, by decide⟩
  intro hget hn
  rw [hresult, hn]
  simp [CacheStorage.matchRequest_of_not_get w.caches request hget]

set_option maxRecDepth 100000 in
/-- C3 with the network down and an older answer to the GET of the endpoint in the cache: the
GET gets the cached answer, the POST to the same URL gets the synthetic JSON response. With a
cached answer that varies on `Accept`, the GET that asks for JSON as the cached one did gets it,
and the GET that asks for HTML gets the synthetic JSON response. -/
theorem C3_networkFirst_result_witness :
    (V17.networkFirst offlineEnv apiRequest apiCachedWorld).1 =
      Settled.resolved staleResponse ∧
    (V17.networkFirst offlineEnv apiPostRequest apiCachedWorld).1 =
      Settled.resolved V17.offlineJsonResponse ∧
    (V17.networkFirst offlineEnv apiJsonRequest apiVariedCachedWorld).1 =
      Settled.resolved variedResponse ∧
    (V17.networkFirst offlineEnv apiHtmlRequest apiVariedCachedWorld).1 =
      Settled.resolved V17.offlineJsonResponse :=
  ⟨(C3_networkFirst_result offlineEnv apiRequest apiCachedWorld rfl rfl).1.trans (by decide),
   (C3_networkFirst_result offlineEnv apiPostRequest apiCachedWorld rfl rfl).2.1
      (by decide) rfl,
   (C3_networkFirst_result offlineEnv apiJsonRequest apiVariedCachedWorld rfl rfl).1.trans
      (by decide),
   (C3_networkFirst_result offlineEnv apiHtmlRequest apiVariedCachedWorld rfl rfl).1.trans
      (by decide)⟩

/-- C4. `cacheFirst` never rejects. When `caches.match` and `caches.open` themselves do not
reject, it resolves to the response that `caches.match(request)` finds, if it finds one, and
then the only browser call made is the lookup (no fetch); otherwise to the network response if
`fetch` resolves; otherwise to a 503 `text/plain` response with body
`Offline - Content not available`. A request that is not a GET is never in the cache: it is
fetched whatever the buckets hold. -/
theorem C4_cacheFirst_result (env : Env) (request : Request) (w : World) :
    (∀ reason, (V17.cacheFirst env request w).1 ≠ Settled.rejected reason) ∧
    (env.matchRejects request.url.href = false → env.openRejects V17.DYNAMIC_CACHE = false →
      (V17.cacheFirst env request w).1 =
        (match w.caches.matchRequest request with
         | some cached => Settled.resolved cached
         | none =>
           match env.network request with
           | some networkResponse => Settled.resolved networkResponse
           | none => Settled.resolved V17.offlineTextResponse) ∧
      (∀ cached, w.caches.matchRequest request = some cached →
        (V17.cacheFirst env request w).2.trace =
          w.trace ++ [Effect.cachesMatch request.url.href]) ∧
      (w.caches.matchRequest request = none →
        ((V17.cacheFirst env request w).2.trace.drop w.trace.length).take 2 =
          [Effect.cachesMatch request.url.href, Effect.fetch request])) ∧
    (request.method ≠ "GET" → w.caches.matchRequest request = none) ∧
    V17.offlineTextResponse.status = 503 ∧
    V17.offlineTextResponse.header "Content-Type" = some "text/plain" ∧
    V17.offlineTextResponse.body = "Offline - Content not available" := by
  refine ⟨?_, ?_, CacheStorage.matchRequest_of_not_get w.caches request, rfl, by decide, rfl⟩
  · intro reason
    unfold V17.cacheFirst
    show (Async.andThen (Async.tryCatch _ (fun _ => Async.unit V17.offlineTextResponse))
      Async.unit w).1 ≠ Settled.rejected reason
    rw [Async.andThen_unit]
    exact Async.tryCatch_unit_ne_rejected _ V17.offlineTextResponse w reason
  · intro hmatch hopen
    refine ⟨?_, ?_, ?_⟩
    · cases hc : w.caches.matchRequest request with
      | some cached =>
        simp [V17.cacheFirst, tryCatch, tryCatchThe, MonadExceptOf.tryCatch,
          MonadExcept.tryCatch, Async.tryCatch, bind, Async.andThen, pure, Async.unit,
          cachesMatch, World.log, hc, hmatch]
      | none =>
        cases hn : env.network request with
        | none =>
          simp [V17.cacheFirst, tryCatch, tryCatchThe, MonadExceptOf.tryCatch,
            MonadExcept.tryCatch, Async.tryCatch, bind, Async.andThen, pure, Async.unit, fetch,
            cachesMatch, World.log, hc, hn, hmatch]
        | some r =>
          cases hok : r.ok <;>
          simp [V17.cacheFirst, tryCatch, tryCatchThe, MonadExceptOf.tryCatch,
            MonadExcept.tryCatch, Async.tryCatch, bind, Async.andThen, pure, Async.unit, fetch,
            cachesMatch, cachesOpen, Async.detach, World.log, hc, hn, hok, hmatch, hopen]
    · intro cached hc
      simp [V17.cacheFirst, tryCatch, tryCatchThe, MonadExceptOf.tryCatch,
        MonadExcept.tryCatch, Async.tryCatch, bind, Async.andThen, pure, Async.unit,
        cachesMatch, World.log, hc, hmatch]
    · intro hc
      cases hn : env.network request with
      | none =>
        simp [V17.cacheFirst, tryCatch, tryCatchThe, MonadExceptOf.tryCatch,
          MonadExcept.tryCatch, Async.tryCatch, bind, Async.andThen, pure, Async.unit, fetch,
          cachesMatch, World.log, hc, hn, hmatch]
      | some r =>
        cases hok : r.ok <;> by_cases hg : request.method = "GET" <;>
        cases hp : env.putRejects V17.DYNAMIC_CACHE request r <;>
        simp [V17.cacheFirst, tryCatch, tryCatchThe, MonadExceptOf.tryCatch,
          MonadExcept.tryCatch, Async.tryCatch, bind, Async.andThen, pure, Async.unit, fetch,
          cachesMatch, cachesOpen, cachePut, Async.detach, World.log, hc, hn, hok, hmatch,
          hopen, hg, hp]

/-- C4 with the network up: the stylesheet that is cached is answered from the cache without a
fetch; the POST of the leave request, whose URL is cached as a page, goes to the network. -/
theorem C4_cacheFirst_result_witness :
    (V17.cacheFirst onlineEnv stylesheetRequest stylesheetCachedWorld).1 =
      Settled.resolved staleResponse ∧
    (V17.cacheFirst onlineEnv stylesheetRequest stylesheetCachedWorld).2.trace =
      [Effect.cachesMatch stylesheetRequest.url.href] ∧
    (V17.cacheFirst onlineEnv leavePost leavePageCachedWorld).1 =
      Settled.resolved freshResponse :=
  ⟨((C4_cacheFirst_result onlineEnv stylesheetRequest stylesheetCachedWorld).2.1 rfl rfl).1.trans
      (by decide),
   ((C4_cacheFirst_result onlineEnv stylesheetRequest stylesheetCachedWorld).2.1 rfl rfl).2.1
      staleResponse (by decide),
   ((C4_cacheFirst_result onlineEnv leavePost leavePageCachedWorld).2.1 rfl rfl).1.trans
      (by decide)⟩

/-- C6. `networkOnly` makes one browser call, the fetch, and no Cache Storage call: the buckets
after the call are the buckets before it. It resolves to the network response when `fetch`
resolves and to a 503 response with body `Network request failed` when `fetch` rejects. -/
theorem C6_networkOnly_frame (env : Env) (request : Request) (w : World) :
    (V17.networkOnly env request w).2.caches = w.caches ∧
    (V17.networkOnly env request w).2.trace = w.trace ++ [Effect.fetch request] ∧
    (V17.networkOnly env request w).1 =
      (match env.network request with
       | some networkResponse => Settled.resolved networkResponse
       | none => Settled.resolved V17.networkFailedResponse) ∧
    V17.networkFailedResponse.status = 503 ∧
    V17.networkFailedResponse.body = "Network request failed" := by
  refine ⟨?_, ?_, ?_, rfl, rfl⟩ <;>
  cases hn : env.network request <;>
  simp [V17.networkOnly, tryCatch, tryCatchThe, MonadExceptOf.tryCatch, MonadExcept.tryCatch,
    Async.tryCatch, bind, Async.andThen, pure, Async.unit, fetch, World.log, hn]

/-! ## Navigation requests -/

/-- C5, at a navigation. Version 1.7 has no rule for navigation requests. A navigation to the
home page that is not network-only is routed to `cacheFirst`, and with an older copy in the cache
it gets that copy although the network answers with a fresh response. -/
theorem C5_v17_navigation_served_from_cache :
    homeRequest.mode = "navigate" ∧
    V17.isNetworkOnly homeRequest.url.pathname = false ∧
    onlineEnv.network homeRequest = some freshResponse ∧
    V17.fetchListener onlineEnv.origin homeRequest = some V17.Strategy.cacheFirst ∧
    (V17.onFetch onlineEnv homeRequest homeCachedWorld).map (fun run => run.1) =
      some (Settled.resolved staleResponse) ∧
    staleResponse ≠ freshResponse := by
  decide

/-- The version 1.7 listener reads the URL of a request and nothing else: its answer does not
depend on the mode, the destination or the `Accept` header. -/
theorem V17.fetchListener_reads_url_only (locationOrigin : String) (request : Request)
    (mode destination : String) (headers : List (String × String)) :
    V17.fetchListener locationOrigin
        { request with mode := mode, destination := destination, headers := headers } =
      V17.fetchListener locationOrigin request :=
  rfl

/-! ## Cache writes -/

theorem Cache.matchUrl_put (c : Cache) (request : Request) (response : Response) :
    Cache.matchUrl (Cache.put c request response) request.url.href = some response := by
  unfold Cache.matchUrl Cache.put
  rw [List.filter_append]
  simp

theorem CacheStorage.any_open (cs : CacheStorage) (name : String) :
    (CacheStorage.open cs name).any (fun b => b.1 == name) = true := by
  unfold CacheStorage.open
  split
  · assumption
  · simp

theorem CacheStorage.bucket_update (cs : CacheStorage) (name : String) (f : Cache → Cache)
    (h : cs.any (fun b => b.1 == name) = true) :
    CacheStorage.bucket (CacheStorage.update cs name f) name =
      f (CacheStorage.bucket cs name) := by
  induction cs with
  | nil => simp at h
  | cons b rest ih =>
    by_cases hb : b.1 = name
    · simp [CacheStorage.bucket, CacheStorage.update, hb]
    · have hrest : rest.any (fun b => b.1 == name) = true := by
        simpa [hb] using h
      have ih2 := ih hrest
      simp only [CacheStorage.bucket, CacheStorage.update] at ih2 ⊢
      simpa [hb] using ih2

theorem CacheStorage.bucket_open (cs : CacheStorage) (name : String) :
    CacheStorage.bucket (CacheStorage.open cs name) name = CacheStorage.bucket cs name := by
  unfold CacheStorage.open
  split
  · rfl
  · rename_i h
    have hnone : cs.find? (fun b => b.1 == name) = none := by
      rw [List.find?_eq_none]
      intro b hb hbn
      exact h (List.any_eq_true.mpr ⟨b, hb, hbn⟩)
    simp [CacheStorage.bucket, List.find?_append, hnone]

theorem CacheStorage.bucket_open_of_ne (cs : CacheStorage) (name other : String)
    (h : other ≠ name) :
    CacheStorage.bucket (CacheStorage.open cs name) other = CacheStorage.bucket cs other := by
  unfold CacheStorage.open
  split
  · rfl
  · have hne : ¬ name = other := fun e => h e.symm
    cases hf : cs.find? (fun b => b.1 == other) <;>
    simp [CacheStorage.bucket, List.find?_append, hf, hne]

/-- Opening a bucket changes the content of no bucket. -/
theorem CacheStorage.bucket_open_any (cs : CacheStorage) (name other : String) :
    CacheStorage.bucket (CacheStorage.open cs name) other = CacheStorage.bucket cs other := by
  by_cases h : other = name
  · rw [h]
    exact CacheStorage.bucket_open cs name
  · exact CacheStorage.bucket_open_of_ne cs name other h

/-- C9, counterexample. The network answers the stylesheet request with an ok response, but
`caches.open` rejects: `cacheFirst` resolves to the synthetic offline response, not to the
network response. -/
theorem C9_cacheFirst_open_rejects :
    openFailsEnv.network stylesheetRequest = some freshResponse ∧
    freshResponse.ok = true ∧
    openFailsEnv.openRejects V17.DYNAMIC_CACHE = true ∧
    (V17.cacheFirst openFailsEnv stylesheetRequest emptyWorld).1 =
      Settled.resolved V17.offlineTextResponse ∧
    V17.offlineTextResponse ≠ freshResponse := by
  decide

/-- C9, amended. A failed `cache.put` is ignored. In `cacheFirst` and `networkFirst` of version
1.7 and in `cacheFirst` of version 1.4, whenever the fetch resolves with an ok response, the
bucket opens and `cache.put` rejects, the strategy still resolves to that network response, and
no entry is written. (For `cacheFirst` the fetch happens after a lookup that missed.) -/
theorem C9_put_failure_ignored (env : Env) (request : Request) (w : World)
    (response : Response)
    (hnet : env.network request = some response)
    (hok : response.ok = true)
    (hopen : ∀ name, env.openRejects name = false)
    (hput : ∀ name, env.putRejects name request response = true) :
    (V17.networkFirst env request w).1 = Settled.resolved response ∧
    (V17.networkFirst env request w).2.caches =
      (if request.method = "GET" then w.caches.open V17.DYNAMIC_CACHE else w.caches) ∧
    (env.matchRejects request.url.href = false → w.caches.matchUrl request.url.href = none →
      (V17.cacheFirst env request w).1 = Settled.resolved response ∧
      (V17.cacheFirst env request w).2.caches = w.caches.open V17.DYNAMIC_CACHE ∧
      (V14.cacheFirst env request w).1 = Settled.resolved response ∧
      (V14.cacheFirst env request w).2.caches = w.caches.open V14.DYNAMIC_CACHE) := by
  refine ⟨?_, ?_, ?_⟩
  · cases hg : (request.method == "GET") <;>
    simp [V17.networkFirst, tryCatch, tryCatchThe, MonadExceptOf.tryCatch, MonadExcept.tryCatch,
      Async.tryCatch, bind, Async.andThen, pure, Async.unit, fetch, cachesOpen, cachePut,
      Async.detach, World.log, hnet, hok, hg, hopen, hput]
  · by_cases hg : request.method = "GET" <;>
    simp [V17.networkFirst, tryCatch, tryCatchThe, MonadExceptOf.tryCatch, MonadExcept.tryCatch,
      Async.tryCatch, bind, Async.andThen, pure, Async.unit, fetch, cachesOpen, cachePut,
      Async.detach, World.log, hnet, hok, hg, hopen, hput]
  · intro hmatch hmiss
    have hnone := CacheStorage.matchRequest_eq_none w.caches request hmiss
    refine ⟨?_, ?_, ?_, ?_⟩ <;> by_cases hg : request.method = "GET" <;>
    simp [V17.cacheFirst, V14.cacheFirst, tryCatch, tryCatchThe, MonadExceptOf.tryCatch,
      MonadExcept.tryCatch, Async.tryCatch, bind, Async.andThen, pure, Async.unit, fetch,
      cachesMatch, cachesOpen, cachePut, Async.detach, World.log, hnet, hok, hopen, hput,
      hmatch, hnone, hg]

/-- C9 amended, at the stylesheet with `cache.put` rejecting. -/
theorem C9_put_failure_ignored_witness :
    putFailsEnv.putRejects V17.DYNAMIC_CACHE stylesheetRequest freshResponse = true ∧
    (V17.cacheFirst putFailsEnv stylesheetRequest emptyWorld).1 =
      Settled.resolved freshResponse :=
  ⟨rfl,
   ((C9_put_failure_ignored putFailsEnv stylesheetRequest emptyWorld freshResponse rfl
      (by decide) (fun _ => rfl) (fun _ => rfl)).2.2 rfl (by decide)).1⟩

set_option maxRecDepth 100000 in
/-- C10, at a POST. The listener gives the POST of a leave request to `cacheFirst`. The lookup
misses and the network answers with an ok response, so `cacheFirst` opens the dynamic bucket and
calls `cache.put`; the call rejects, because the request is not a GET, and the bucket stays
empty: nothing is written. -/
theorem C10_cacheFirst_post_is_not_cached :
    leavePost.method = "POST" ∧
    V17.fetchListener onlineEnv.origin leavePost = some V17.Strategy.cacheFirst ∧
    emptyWorld.caches.matchRequest leavePost = none ∧
    onlineEnv.network leavePost = some freshResponse ∧
    freshResponse.ok = true ∧
    V17.cacheFirst onlineEnv leavePost emptyWorld =
      (Settled.resolved freshResponse,
       { caches := [(V17.DYNAMIC_CACHE, [])]
         trace := [Effect.cachesMatch leavePost.url.href, Effect.fetch leavePost,
                   Effect.cachesOpen V17.DYNAMIC_CACHE,
                   Effect.cachePut V17.DYNAMIC_CACHE leavePost freshResponse] }) ∧
    (cachePut onlineEnv V17.DYNAMIC_CACHE leavePost freshResponse
        { caches := [(V17.DYNAMIC_CACHE, [])], trace := [] }).1 =
      Settled.rejected "TypeError: Request method is unsupported" := by
  decide

/-- For a request that is not a GET, `cacheFirst` leaves the content of every bucket as it
was, whatever the network and the browser answer. -/
theorem V17.cacheFirst_stores_no_other_method (env : Env) (request : Request) (w : World)
    (hget : request.method ≠ "GET") (name : String) :
    (V17.cacheFirst env request w).2.caches.bucket name = w.caches.bucket name := by
  have hc := CacheStorage.matchRequest_of_not_get w.caches request hget
  cases hm : env.matchRejects request.url.href with
  | true =>
    simp [V17.cacheFirst, tryCatch, tryCatchThe, MonadExceptOf.tryCatch,
      MonadExcept.tryCatch, Async.tryCatch, bind, Async.andThen, pure, Async.unit,
      cachesMatch, World.log, hm]
  | false =>
    cases hn : env.network request with
    | none =>
      simp [V17.cacheFirst, tryCatch, tryCatchThe, MonadExceptOf.tryCatch,
        MonadExcept.tryCatch, Async.tryCatch, bind, Async.andThen, pure, Async.unit, fetch,
        cachesMatch, World.log, hm, hc, hn]
    | some r =>
      cases hok : r.ok <;> cases ho : env.openRejects V17.DYNAMIC_CACHE <;>
      simp [V17.cacheFirst, tryCatch, tryCatchThe, MonadExceptOf.tryCatch,
        MonadExcept.tryCatch, Async.tryCatch, bind, Async.andThen, pure, Async.unit, fetch,
        cachesMatch, cachesOpen, cachePut, Async.detach, World.log, hm, hc, hn, hok, ho,
        hget, CacheStorage.bucket_open_any]

/-- For a GET, when the Cache Storage calls themselves do not reject, `cacheFirst` calls
`cache.put` exactly when the lookup missed and the network response is ok, and then the dynamic
bucket maps the request to that response. On a hit, on a response that is not ok and on a
network failure it makes no write call and every bucket is as before. -/
theorem V17.cacheFirst_writes_on_ok_get_miss (env : Env) (request : Request) (w : World)
    (hget : request.method = "GET")
    (hmatch : env.matchRejects request.url.href = false)
    (hopen : env.openRejects V17.DYNAMIC_CACHE = false)
    (hput : ∀ response, env.putRejects V17.DYNAMIC_CACHE request response = false) :
    (V17.cacheFirst env request w).2.caches =
      (match w.caches.matchRequest request, env.network request with
       | none, some networkResponse =>
         if networkResponse.ok then
           (w.caches.open V17.DYNAMIC_CACHE).update V17.DYNAMIC_CACHE
             (fun c => c.put request networkResponse)
         else w.caches
       | _, _ => w.caches) ∧
    (V17.cacheFirst env request w).2.trace =
      w.trace ++ Effect.cachesMatch request.url.href ::
        (match w.caches.matchRequest request, env.network request with
         | none, some networkResponse =>
           if networkResponse.ok then
             [Effect.fetch request, Effect.cachesOpen V17.DYNAMIC_CACHE,
              Effect.cachePut V17.DYNAMIC_CACHE request networkResponse]
           else [Effect.fetch request]
         | none, none => [Effect.fetch request]
         | some _, _ => []) ∧
    (∀ networkResponse, w.caches.matchRequest request = none →
      env.network request = some networkResponse → networkResponse.ok = true →
      Cache.matchUrl ((V17.cacheFirst env request w).2.caches.bucket V17.DYNAMIC_CACHE)
        request.url.href = some networkResponse) := by
  have hcaches : (V17.cacheFirst env request w).2.caches =
      (match w.caches.matchRequest request, env.network request with
       | none, some networkResponse =>
         if networkResponse.ok then
           (w.caches.open V17.DYNAMIC_CACHE).update V17.DYNAMIC_CACHE
             (fun c => c.put request networkResponse)
         else w.caches
       | _, _ => w.caches) := by
    cases hc : w.caches.matchRequest request with
    | some cached =>
      simp [V17.cacheFirst, tryCatch, tryCatchThe, MonadExceptOf.tryCatch,
        MonadExcept.tryCatch, Async.tryCatch, bind, Async.andThen, pure, Async.unit,
        cachesMatch, World.log, hc, hmatch]
    | none =>
      cases hn : env.network request with
      | none =>
        simp [V17.cacheFirst, tryCatch, tryCatchThe, MonadExceptOf.tryCatch,
          MonadExcept.tryCatch, Async.tryCatch, bind, Async.andThen, pure, Async.unit, fetch,
          cachesMatch, World.log, hc, hn, hmatch]
      | some r =>
        cases hok : r.ok <;>
        simp [V17.cacheFirst, tryCatch, tryCatchThe, MonadExceptOf.tryCatch,
          MonadExcept.tryCatch, Async.tryCatch, bind, Async.andThen, pure, Async.unit, fetch,
          cachesMatch, cachesOpen, cachePut, Async.detach, World.log, hc, hn, hok, hmatch,
          hopen, hput, hget]
  refine ⟨hcaches, ?_, ?_⟩
  · cases hc : w.caches.matchRequest request with
    | some cached =>
      simp [V17.cacheFirst, tryCatch, tryCatchThe, MonadExceptOf.tryCatch,
        MonadExcept.tryCatch, Async.tryCatch, bind, Async.andThen, pure, Async.unit,
        cachesMatch, World.log, hc, hmatch]
    | none =>
      cases hn : env.network request with
      | none =>
        simp [V17.cacheFirst, tryCatch, tryCatchThe, MonadExceptOf.tryCatch,
          MonadExcept.tryCatch, Async.tryCatch, bind, Async.andThen, pure, Async.unit, fetch,
          cachesMatch, World.log, hc, hn, hmatch]
      | some r =>
        cases hok : r.ok <;>
        simp [V17.cacheFirst, tryCatch, tryCatchThe, MonadExceptOf.tryCatch,
          MonadExcept.tryCatch, Async.tryCatch, bind, Async.andThen, pure, Async.unit, fetch,
          cachesMatch, cachesOpen, cachePut, Async.detach, World.log, hc, hn, hok, hmatch,
          hopen, hput, hget]
  · intro r hc hn hok
    rw [hcaches]
    simp only [hc, hn, hok, if_true]
    rw [CacheStorage.bucket_update _ _ _ (CacheStorage.any_open _ _)]
    exact Cache.matchUrl_put _ _ _

/-! ## What Cache Storage can hold -/

theorem CacheStorage.getOnly_open (cs : CacheStorage) (name : String) (h : cs.GetOnly) :
    (CacheStorage.open cs name).GetOnly := by
  unfold CacheStorage.open
  split
  · exact h
  · intro b hb e he
    rcases List.mem_append.mp hb with hb1 | hb1
    · exact h b hb1 e he
    · have hbe : b = (name, []) := by simpa using hb1
      subst hbe
      simp at he

theorem CacheStorage.getOnly_update (cs : CacheStorage) (name : String) (f : Cache → Cache)
    (h : cs.GetOnly)
    (hf : ∀ c : Cache, (∀ e ∈ c, e.1.method = "GET") → ∀ e ∈ f c, e.1.method = "GET") :
    (CacheStorage.update cs name f).GetOnly := by
  intro b hb e he
  unfold CacheStorage.update at hb
  obtain ⟨a, ha, hab⟩ := List.mem_map.mp hb
  by_cases hn : a.1 = name
  · simp only [hn, beq_self_eq_true, if_true] at hab
    subst hab
    exact hf a.2 (h a ha) e he
  · have hne : (a.1 == name) = false := by simpa using hn
    simp only [hne, Bool.false_eq_true, if_false] at hab
    subst hab
    exact h a ha e he

theorem CacheStorage.getOnly_filter (cs : CacheStorage) (p : String × Cache → Bool)
    (h : cs.GetOnly) : CacheStorage.GetOnly (cs.filter p) :=
  fun b hb e he => h b (List.mem_filter.mp hb).1 e he

/-- The call `cache.put` keeps every key a GET: it stores a GET or nothing. -/
theorem cachePut_getOnly (env : Env) (cache : String) (request : Request) (response : Response)
    (w : World) (h : w.caches.GetOnly) :
    (cachePut env cache request response w).2.caches.GetOnly := by
  unfold cachePut
  by_cases hg : request.method = "GET"
  · cases hp : env.putRejects cache request response
    · simp only [hg, bne_self_eq_false, Bool.false_eq_true, if_false]
      apply CacheStorage.getOnly_update _ _ _ h
      intro c hc e he
      unfold Cache.put at he
      rcases List.mem_append.mp he with he1 | he1
      · exact hc e (List.mem_filter.mp he1).1
      · have : e = (request, response) := by simpa using he1
        rw [this]
        exact hg
    · simpa [hg, World.log] using h
  · have hne : (request.method != "GET") = true := by simpa using hg
    simpa [hne, World.log] using h

theorem cachesOpen_getOnly (env : Env) (name : String) (w : World) (h : w.caches.GetOnly) :
    (cachesOpen env name w).2.caches.GetOnly := by
  unfold cachesOpen
  cases ho : env.openRejects name
  · simpa using CacheStorage.getOnly_open _ _ h
  · simpa [World.log] using h

theorem cacheDelete_getOnly (env : Env) (cache : String) (request : Request) (w : World)
    (h : w.caches.GetOnly) :
    (cacheDelete env cache request w).2.caches.GetOnly := by
  unfold cacheDelete
  cases hd : env.deleteRejects cache request
  · by_cases hg : request.method = "GET"
    · simp only [hg, bne_self_eq_false, Bool.false_eq_true, if_false]
      apply CacheStorage.getOnly_update _ _ _ h
      intro c hc e he
      exact hc e (List.mem_filter.mp he).1
    · have hne : (request.method != "GET") = true := by simpa using hg
      simpa [hne, World.log] using h
  · simpa [World.log] using h

theorem cachesDelete_getOnly (env : Env) (name : String) (w : World) (h : w.caches.GetOnly) :
    (cachesDelete env name w).2.caches.GetOnly := by
  unfold cachesDelete
  cases hd : env.storageDeleteRejects name
  · simpa using CacheStorage.getOnly_filter _ _ h
  · simpa [World.log] using h

/-- Whatever the fetch listener answers a request with, every key in Cache Storage is still a
GET afterwards. -/
theorem V17.strategy_getOnly (env : Env) (request : Request) (w : World)
    (strategy : V17.Strategy) (h : w.caches.GetOnly) :
    (strategy.run env request w).2.caches.GetOnly := by
  have hput : ∀ (r : Response) (t : List Effect),
      (cachePut env V17.DYNAMIC_CACHE request r
        { caches := w.caches.open V17.DYNAMIC_CACHE, trace := t }).2.caches.GetOnly :=
    fun r t => cachePut_getOnly env _ request r _ (CacheStorage.getOnly_open _ _ h)
  cases strategy with
  | networkOnly =>
    cases hn : env.network request <;>
    simpa [V17.Strategy.run, V17.networkOnly, tryCatch, tryCatchThe, MonadExceptOf.tryCatch,
      MonadExcept.tryCatch, Async.tryCatch, bind, Async.andThen, pure, Async.unit, fetch,
      World.log, hn] using h
  | networkFirst =>
    cases hn : env.network request with
    | none =>
      cases hm : env.matchRejects request.url.href <;>
      cases hc : w.caches.matchRequest request <;>
      simpa [V17.Strategy.run, V17.networkFirst, tryCatch, tryCatchThe, MonadExceptOf.tryCatch,
        MonadExcept.tryCatch, Async.tryCatch, bind, Async.andThen, pure, Async.unit, fetch,
        cachesMatch, World.log, hn, hm, hc] using h
    | some r =>
      cases hok : (r.ok && request.method == "GET")
      · simpa [V17.Strategy.run, V17.networkFirst, tryCatch, tryCatchThe,
          MonadExceptOf.tryCatch, MonadExcept.tryCatch, Async.tryCatch, bind, Async.andThen,
          pure, Async.unit, fetch, World.log, hn, hok] using h
      · cases ho : env.openRejects V17.DYNAMIC_CACHE
        · have := hput r (w.trace ++ [Effect.fetch request] ++
            [Effect.cachesOpen V17.DYNAMIC_CACHE])
          simpa [V17.Strategy.run, V17.networkFirst, tryCatch, tryCatchThe,
            MonadExceptOf.tryCatch, MonadExcept.tryCatch, Async.tryCatch, bind,
            Async.andThen, pure, Async.unit, fetch, cachesOpen, Async.detach, World.log, hn,
            hok, ho] using this
        · cases hm : env.matchRejects request.url.href <;>
          cases hc : w.caches.matchRequest request <;>
          simpa [V17.Strategy.run, V17.networkFirst, tryCatch, tryCatchThe,
            MonadExceptOf.tryCatch, MonadExcept.tryCatch, Async.tryCatch, bind,
            Async.andThen, pure, Async.unit, fetch, cachesOpen, cachesMatch, World.log, hn,
            hok, ho, hm, hc] using h
  | cacheFirst =>
    cases hm : env.matchRejects request.url.href with
    | true =>
      simpa [V17.Strategy.run, V17.cacheFirst, tryCatch, tryCatchThe, MonadExceptOf.tryCatch,
        MonadExcept.tryCatch, Async.tryCatch, bind, Async.andThen, pure, Async.unit,
        cachesMatch, World.log, hm] using h
    | false =>
      cases hc : w.caches.matchRequest request with
      | some cached =>
        simpa [V17.Strategy.run, V17.cacheFirst, tryCatch, tryCatchThe,
          MonadExceptOf.tryCatch, MonadExcept.tryCatch, Async.tryCatch, bind, Async.andThen,
          pure, Async.unit, cachesMatch, World.log, hm, hc] using h
      | none =>
        cases hn : env.network request with
        | none =>
          simpa [V17.Strategy.run, V17.cacheFirst, tryCatch, tryCatchThe,
            MonadExceptOf.tryCatch, MonadExcept.tryCatch, Async.tryCatch, bind,
            Async.andThen, pure, Async.unit, fetch, cachesMatch, World.log, hm, hc, hn]
            using h
        | some r =>
          cases hok : r.ok
          · simpa [V17.Strategy.run, V17.cacheFirst, tryCatch, tryCatchThe,
              MonadExceptOf.tryCatch, MonadExcept.tryCatch, Async.tryCatch, bind,
              Async.andThen, pure, Async.unit, fetch, cachesMatch, World.log, hm, hc, hn,
              hok] using h
          · cases ho : env.openRejects V17.DYNAMIC_CACHE
            · have := hput r (w.trace ++ [Effect.cachesMatch request.url.href] ++
                [Effect.fetch request] ++ [Effect.cachesOpen V17.DYNAMIC_CACHE])
              simpa [V17.Strategy.run, V17.cacheFirst, tryCatch, tryCatchThe,
                MonadExceptOf.tryCatch, MonadExcept.tryCatch, Async.tryCatch, bind,
                Async.andThen, pure, Async.unit, fetch, cachesMatch, cachesOpen,
                Async.detach, World.log, hm, hc, hn, hok, ho] using this
            · simpa [V17.Strategy.run, V17.cacheFirst, tryCatch, tryCatchThe,
                MonadExceptOf.tryCatch, MonadExcept.tryCatch, Async.tryCatch, bind,
                Async.andThen, pure, Async.unit, fetch, cachesMatch, cachesOpen, World.log,
                hm, hc, hn, hok, ho] using h

/-! ## Background sync -/

theorem V17.replayEach_nil (env : Env) (cache : String) (w : World) :
    V17.replayEach env cache [] w = (Settled.resolved (), w) := by
  simp [V17.replayEach, pure, Async.unit, bind, Async.andThen]

theorem V17.replayEach_cons (env : Env) (cache : String) (r : Request) (rest : List Request)
    (w : World) :
    V17.replayEach env cache (r :: rest) w =
      V17.replayEach env cache rest
        (match env.network r with
         | none => w.log (Effect.fetch r)
         | some _ => (cacheDelete env cache r (w.log (Effect.fetch r))).2) := by
  cases hn : env.network r <;> cases hd : env.deleteRejects cache r <;>
  by_cases hg : r.method = "GET" <;>
  simp [V17.replayEach, tryCatch, tryCatchThe, MonadExceptOf.tryCatch, MonadExcept.tryCatch,
    Async.tryCatch, bind, Async.andThen, pure, Async.unit, fetch, hn, hd, hg, cacheDelete,
    World.log]

theorem V17.replayEach_resolves (env : Env) (cache : String) (pending : List Request)
    (w : World) : (V17.replayEach env cache pending w).1 = Settled.resolved () := by
  induction pending generalizing w with
  | nil => rw [V17.replayEach_nil]
  | cons r rest ih => rw [V17.replayEach_cons]; exact ih _

theorem CacheStorage.mem_bucket (cs : CacheStorage) (name : String) (e : Request × Response)
    (he : e ∈ CacheStorage.bucket cs name) : ∃ b ∈ cs, e ∈ b.2 := by
  unfold CacheStorage.bucket at he
  cases hf : cs.find? (fun b => b.1 == name) with
  | none => simp [hf] at he
  | some b =>
    refine ⟨b, List.mem_of_find?_eq_some hf, ?_⟩
    simpa [hf] using he

theorem Async.tryCatch_rethrow {α : Type} (p : Async α) :
    Async.tryCatch p (fun error => Async.throw error) = p := by
  funext w
  unfold Async.tryCatch Async.throw
  split <;> simp [*]

/-- A sync function with key filter `p` rejects exactly when opening the bucket or listing its
keys does: the replay loop catches what a replay throws. -/
theorem V17.sync_rejects_iff (env : Env) (w : World) (p : Request → Bool) :
    (∃ reason, (Async.tryCatch
        (Async.andThen (cachesOpen env V17.DYNAMIC_CACHE) (fun cache =>
          Async.andThen (cacheKeys env cache) (fun requests =>
            V17.replayEach env cache (requests.filter p))))
        (fun error => Async.throw error) w).1 = Settled.rejected reason) ↔
      (env.openRejects V17.DYNAMIC_CACHE = true ∨ env.keysRejects V17.DYNAMIC_CACHE = true) := by
  rw [Async.tryCatch_rethrow]
  cases ho : env.openRejects V17.DYNAMIC_CACHE <;>
  cases hk : env.keysRejects V17.DYNAMIC_CACHE <;>
  simp [Async.andThen, cachesOpen, cacheKeys, World.log, ho, hk, V17.replayEach_resolves]

/-- A sync function whose key filter `p` asks for another method than GET finds no pending
request in a Cache Storage whose keys are GETs: it opens the bucket, lists the keys, and that is
all. -/
theorem V17.sync_run (env : Env) (w : World) (p : Request → Bool)
    (hget : w.caches.GetOnly)
    (hp : ∀ r : Request, p r = true → r.method ≠ "GET") :
    Async.tryCatch
        (Async.andThen (cachesOpen env V17.DYNAMIC_CACHE) (fun cache =>
          Async.andThen (cacheKeys env cache) (fun requests =>
            V17.replayEach env cache (requests.filter p))))
        (fun error => Async.throw error) w =
      if env.openRejects V17.DYNAMIC_CACHE then
        (Settled.rejected "caches.open rejected",
         { caches := w.caches, trace := w.trace ++ [Effect.cachesOpen V17.DYNAMIC_CACHE] })
      else if env.keysRejects V17.DYNAMIC_CACHE then
        (Settled.rejected "cache.keys rejected",
         { caches := w.caches.open V17.DYNAMIC_CACHE
           trace := w.trace ++ [Effect.cachesOpen V17.DYNAMIC_CACHE,
                                Effect.cacheKeys V17.DYNAMIC_CACHE] })
      else
        (Settled.resolved (),
         { caches := w.caches.open V17.DYNAMIC_CACHE
           trace := w.trace ++ [Effect.cachesOpen V17.DYNAMIC_CACHE,
                                Effect.cacheKeys V17.DYNAMIC_CACHE] }) := by
  have hnil : ((w.caches.open V17.DYNAMIC_CACHE).bucket V17.DYNAMIC_CACHE).keys.filter p
      = [] := by
    rw [List.filter_eq_nil_iff]
    intro r hr hpr
    unfold Cache.keys at hr
    obtain ⟨e, he, rfl⟩ := List.mem_map.mp hr
    rw [CacheStorage.bucket_open] at he
    obtain ⟨b, hb, heb⟩ := CacheStorage.mem_bucket _ _ e he
    exact hp e.1 hpr (hget b hb e heb)
  rw [Async.tryCatch_rethrow]
  cases ho : env.openRejects V17.DYNAMIC_CACHE <;>
  cases hk : env.keysRejects V17.DYNAMIC_CACHE <;>
  simp [Async.andThen, cachesOpen, cacheKeys, World.log, ho, hk, hnil, V17.replayEach_nil]

/-- In a Cache Storage whose keys are GETs, the two sync functions replay nothing: they make no
fetch and no `cache.delete` call, the content of every bucket is as before, and they reject
exactly when the dynamic bucket cannot be opened or its keys cannot be listed. -/
theorem V17.sync_replays_nothing (env : Env) (w : World) (tag : String)
    (hget : w.caches.GetOnly) :
    fetchedRequests (V17.syncListener env tag w).2.trace = fetchedRequests w.trace ∧
    (∀ request, Effect.cacheDelete V17.DYNAMIC_CACHE request ∈
        (V17.syncListener env tag w).2.trace →
      Effect.cacheDelete V17.DYNAMIC_CACHE request ∈ w.trace) ∧
    (∀ name, (V17.syncListener env tag w).2.caches.bucket name = w.caches.bucket name) := by
  have hleave := V17.sync_run env w
    (fun req => includes req.url.href "/leave/request/" && req.method == "POST") hget
    (by intro r hr; simp only [Bool.and_eq_true, beq_iff_eq] at hr; rw [hr.2]; decide)
  have hswap := V17.sync_run env w
    (fun req => includes req.url.href "/shift/swap/" && req.method == "POST") hget
    (by intro r hr; simp only [Bool.and_eq_true, beq_iff_eq] at hr; rw [hr.2]; decide)
  have hl : V17.syncLeaveRequests env w = _ := hleave
  have hs : V17.syncShiftSwaps env w = _ := hswap
  by_cases h1 : tag = "sync-leave-requests"
  · have h2 : ¬ tag = "sync-shift-swaps" := by rw [h1]; decide
    have hrun : (V17.syncListener env tag w).2 = (V17.syncLeaveRequests env w).2 := by
      cases hr : V17.syncLeaveRequests env w with
      | mk settled w1 =>
        cases settled <;>
        simp [V17.syncListener, bind, Async.andThen, pure, Async.unit, h1, hr]
    rw [hrun, hl]
    cases ho : env.openRejects V17.DYNAMIC_CACHE <;>
    cases hk : env.keysRejects V17.DYNAMIC_CACHE <;>
    simp [fetchedRequests, List.filterMap_append, CacheStorage.bucket_open_any]
  · by_cases h2 : tag = "sync-shift-swaps"
    · have hrun : (V17.syncListener env tag w).2 = (V17.syncShiftSwaps env w).2 := by
        cases hr : V17.syncShiftSwaps env w with
        | mk settled w1 =>
          cases settled <;>
          simp [V17.syncListener, bind, Async.andThen, pure, Async.unit, h1, h2, hr]
      rw [hrun, hs]
      cases ho : env.openRejects V17.DYNAMIC_CACHE <;>
      cases hk : env.keysRejects V17.DYNAMIC_CACHE <;>
      simp [fetchedRequests, List.filterMap_append, CacheStorage.bucket_open_any]
    · simp [V17.syncListener, bind, Async.andThen, pure, Async.unit, h1, h2]

set_option maxRecDepth 100000 in
/-- C7, at a leave request made offline. The POST of the leave request is given to `cacheFirst`,
which answers with the synthetic 503 response and stores nothing. When the `sync` event with the
tag `sync-leave-requests` arrives with the network up, `syncLeaveRequests` finds no pending
request: it opens the bucket, lists the keys and resolves. The only fetch of the leave request
is the one that failed; the request is never replayed. -/
theorem C7_offline_post_is_never_replayed :
    leavePost.method = "POST" ∧
    includes leavePost.url.href "/leave/request/" = true ∧
    V17.onFetch offlineEnv leavePost emptyWorld =
      some (Settled.resolved V17.offlineTextResponse,
        { caches := []
          trace := [Effect.cachesMatch leavePost.url.href, Effect.fetch leavePost] }) ∧
    onlineEnv.network leavePost = some freshResponse ∧
    (V17.onFetch offlineEnv leavePost emptyWorld).map
        (fun run => V17.syncListener onlineEnv "sync-leave-requests" run.2) =
      some (Settled.resolved (),
        { caches := [(V17.DYNAMIC_CACHE, [])]
          trace := [Effect.cachesMatch leavePost.url.href, Effect.fetch leavePost,
                    Effect.cachesOpen V17.DYNAMIC_CACHE,
                    Effect.cacheKeys V17.DYNAMIC_CACHE] }) := by
  decide

/-! ## Cache writes of `networkFirst` -/

/-- C11. When `caches.open` and `cache.put` themselves do not reject, `networkFirst` calls
`cache.put` exactly when the fetch resolves with an ok response and the method is GET, and then
the dynamic bucket maps the request to that response. For another method, for a response that
is not ok and for a failed fetch it makes no write call and every bucket is as before. -/
theorem C11_networkFirst_writes_on_ok_get (env : Env) (request : Request) (w : World)
    (hopen : env.openRejects V17.DYNAMIC_CACHE = false)
    (hput : ∀ response, env.putRejects V17.DYNAMIC_CACHE request response = false) :
    (V17.networkFirst env request w).2.caches =
      (match env.network request with
       | some networkResponse =>
         if networkResponse.ok && request.method == "GET" then
           (w.caches.open V17.DYNAMIC_CACHE).update V17.DYNAMIC_CACHE
             (fun c => c.put request networkResponse)
         else w.caches
       | none => w.caches) ∧
    (V17.networkFirst env request w).2.trace =
      w.trace ++ Effect.fetch request ::
        (match env.network request with
         | some networkResponse =>
           if networkResponse.ok && request.method == "GET" then
             [Effect.cachesOpen V17.DYNAMIC_CACHE,
              Effect.cachePut V17.DYNAMIC_CACHE request networkResponse]
           else []
         | none => [Effect.cachesMatch request.url.href]) ∧
    (∀ networkResponse, env.network request = some networkResponse →
      networkResponse.ok = true → request.method = "GET" →
      Cache.matchUrl ((V17.networkFirst env request w).2.caches.bucket V17.DYNAMIC_CACHE)
        request.url.href = some networkResponse) := by
  have hcaches : (V17.networkFirst env request w).2.caches =
      (match env.network request with
       | some networkResponse =>
         if networkResponse.ok && request.method == "GET" then
           (w.caches.open V17.DYNAMIC_CACHE).update V17.DYNAMIC_CACHE
             (fun c => c.put request networkResponse)
         else w.caches
       | none => w.caches) := by
    cases hn : env.network request with
    | none =>
      cases hm : env.matchRejects request.url.href <;>
      cases hc : w.caches.matchRequest request <;>
      simp [V17.networkFirst, tryCatch, tryCatchThe, MonadExceptOf.tryCatch,
        MonadExcept.tryCatch, Async.tryCatch, bind, Async.andThen, pure, Async.unit, fetch,
        cachesMatch, World.log, hn, hm, hc]
    | some r =>
      cases hok : r.ok <;> by_cases hg : request.method = "GET" <;>
      simp [V17.networkFirst, tryCatch, tryCatchThe, MonadExceptOf.tryCatch,
        MonadExcept.tryCatch, Async.tryCatch, bind, Async.andThen, pure, Async.unit, fetch,
        cachesOpen, cachePut, Async.detach, World.log, hn, hok, hg, hopen, hput]
  refine ⟨hcaches, ?_, ?_⟩
  · cases hn : env.network request with
    | none =>
      cases hm : env.matchRejects request.url.href <;>
      cases hc : w.caches.matchRequest request <;>
      simp [V17.networkFirst, tryCatch, tryCatchThe, MonadExceptOf.tryCatch,
        MonadExcept.tryCatch, Async.tryCatch, bind, Async.andThen, pure, Async.unit, fetch,
        cachesMatch, World.log, hn, hm, hc]
    | some r =>
      cases hok : r.ok <;> by_cases hg : request.method = "GET" <;>
      simp [V17.networkFirst, tryCatch, tryCatchThe, MonadExceptOf.tryCatch,
        MonadExcept.tryCatch, Async.tryCatch, bind, Async.andThen, pure, Async.unit, fetch,
        cachesOpen, cachePut, Async.detach, World.log, hn, hok, hg, hopen, hput]
  · intro r hn hok hget
    rw [hcaches]
    simp only [hn, hok, hget, beq_self_eq_true, Bool.and_self, if_true]
    rw [CacheStorage.bucket_update _ _ _ (CacheStorage.any_open _ _)]
    exact Cache.matchUrl_put _ _ _

/-- C11 at a GET that the network answers (written) and at a POST (nothing written). -/
theorem C11_networkFirst_writes_on_ok_get_witness :
    (V17.networkFirst onlineEnv apiRequest emptyWorld).2.caches =
      [(V17.DYNAMIC_CACHE, [(apiRequest, freshResponse)])] ∧
    (V17.networkFirst onlineEnv apiPostRequest emptyWorld).2.caches = [] :=
  ⟨(C11_networkFirst_writes_on_ok_get onlineEnv apiRequest emptyWorld rfl
      (fun _ => rfl)).1.trans (by decide),
   (C11_networkFirst_writes_on_ok_get onlineEnv apiPostRequest emptyWorld rfl
      (fun _ => rfl)).1.trans (by decide)⟩

/-! ## Cross-origin requests -/

/-- The fetch listener leaves a request alone exactly when it is cross-origin and its URL
contains none of the four CDN strings. -/
theorem V17.fetchListener_eq_none_iff (locationOrigin : String) (request : Request) :
    V17.fetchListener locationOrigin request = none ↔
      (request.url.origin ≠ locationOrigin ∧
       ∀ domain ∈ specCdnDomains, includes request.url.href domain = false) := by
  unfold V17.fetchListener
  by_cases ho : request.url.origin = locationOrigin
  · by_cases h1 : V17.isNetworkOnly request.url.pathname = true <;>
    by_cases h2 : V17.isNetworkFirst request.url.pathname = true <;> simp [ho, h1, h2]
  · cases hcdn : V17.isCDNAsset request.url.href
    · have h := hcdn
      simp only [V17.isCDNAsset, Bool.or_eq_false_iff] at h
      simp [ho, hcdn, specCdnDomains, h.1.1.1, h.1.1.2, h.1.2, h.2]
    · have hne : ¬ ∀ domain ∈ specCdnDomains, includes request.url.href domain = false := by
        intro hall
        have h := hcdn
        simp only [V17.isCDNAsset, hall "googleapis.com" (by decide),
          hall "jsdelivr.net" (by decide), hall "cdnjs.cloudflare.com" (by decide),
          hall "bootstrapcdn.com" (by decide)] at h
        exact absurd h (by decide)
      simp only [ho, hcdn, hne, and_false, iff_false]
      by_cases h1 : V17.isNetworkOnly request.url.pathname = true <;>
      by_cases h2 : V17.isNetworkFirst request.url.pathname = true <;> simp [ho, h1, h2]

set_option maxRecDepth 100000 in
/-- C15, at the failing input. A script on `evil.example`, a host that is on none of the CDN
domains, is cross-origin for the worker and has `jsdelivr.net` in its path: `isCDNAsset` accepts
it, and the fetch listener answers it with `cacheFirst` instead of leaving it alone. -/
theorem C15_lookalike_url_is_intercepted :
    lookalikeRequest.url.origin ≠ exampleOrigin ∧
    (∀ domain ∈ specCdnDomains, hostedOn lookalikeRequest.url.origin domain = false) ∧
    V17.isCDNAsset lookalikeRequest.url.href = true ∧
    V17.fetchListener exampleOrigin lookalikeRequest = some V17.Strategy.cacheFirst := by
  decide

/-! ## Skeleton loader -/

set_option maxRecDepth 100000 in
/-- C16, at the failing input. A container that is empty before `show` is not restored by
`hide`: it keeps the skeleton markup, because the saved original `""` is falsy. -/
theorem C16_hide_keeps_skeleton_in_empty_container :
    SkeletonLoader.hide (SkeletonLoader.«show» (some emptyContainer) "text" noOptions) =
      some { innerHTML := SkeletonLoader.textTemplate
             skeletonOriginal := some ""
             classList := ["card-body"] } ∧
    SkeletonLoader.textTemplate ≠ emptyContainer.innerHTML := by
  decide

/-- For a container whose content is not empty and that carries no saved original, `hide` after
any number of `show` calls restores the content and removes the class `skeleton-active`. -/
theorem SkeletonLoader.hide_show_restores (container : SkeletonLoader.Container)
    (type : String) (options : SkeletonLoader.Options)
    (again : List (String × SkeletonLoader.Options))
    (hcontent : container.innerHTML ≠ "")
    (hfresh : container.skeletonOriginal = none) :
    SkeletonLoader.hide
        (again.foldl (fun c call => SkeletonLoader.«show» c call.1 call.2)
          (SkeletonLoader.«show» (some container) type options)) =
      some { innerHTML := container.innerHTML
             skeletonOriginal := none
             classList := SkeletonLoader.classListRemove container.classList
               "skeleton-active" } := by
  have hremove : ∀ classes : List String,
      SkeletonLoader.classListRemove (SkeletonLoader.classListAdd classes "skeleton-active")
        "skeleton-active" = SkeletonLoader.classListRemove classes "skeleton-active" := by
    intro classes
    unfold SkeletonLoader.classListAdd SkeletonLoader.classListRemove
    split
    · rfl
    · simp [List.filter_append]
  have hshow : ∀ (c : SkeletonLoader.Container) (t : String) (o : SkeletonLoader.Options),
      ∃ html, SkeletonLoader.«show» (some c) t o =
        some { innerHTML := html
               skeletonOriginal :=
                 if !truthy c.skeletonOriginal then some c.innerHTML else c.skeletonOriginal
               classList := SkeletonLoader.classListAdd c.classList "skeleton-active" } :=
    fun c t o => ⟨_, rfl⟩
  have hshown : ∀ (calls : List (String × SkeletonLoader.Options))
      (c : SkeletonLoader.Container),
      c.skeletonOriginal = some container.innerHTML →
      SkeletonLoader.classListRemove c.classList "skeleton-active" =
        SkeletonLoader.classListRemove container.classList "skeleton-active" →
      SkeletonLoader.hide
          (calls.foldl (fun c call => SkeletonLoader.«show» c call.1 call.2) (some c)) =
        some { innerHTML := container.innerHTML
               skeletonOriginal := none
               classList := SkeletonLoader.classListRemove container.classList
                 "skeleton-active" } := by
    intro calls
    induction calls with
    | nil =>
      intro c horig hclass
      simp [SkeletonLoader.hide, horig, truthy, hcontent, hclass]
    | cons call rest ih =>
      intro c horig hclass
      rw [List.foldl_cons]
      obtain ⟨html, hstep⟩ := hshow c call.1 call.2
      rw [hstep]
      exact ih _ (by simp [horig, truthy, hcontent]) (by simp only [hremove]; exact hclass)
  obtain ⟨html, hfirst⟩ := hshow container type options
  rw [hfirst]
  exact hshown again _ (by simp [hfresh, truthy]) (hremove _)

/-! ## Form auto-save: collecting the data -/

/-- C19, at the failing input. Two controls share the name `tags`; the first is empty. The
data object maps `tags` to the second value alone, not to the array of both values. -/
theorem C19_empty_first_value_is_overwritten :
    FormAutoSave.getFormData [("tags", ""), ("tags", "night")] [] =
      [("tags", FormAutoSave.FieldValue.single "night")] ∧
    FormAutoSave.getFormData [("tags", "day"), ("tags", "night")] [] =
      [("tags", FormAutoSave.FieldValue.multiple ["day", "night"])] := by
  decide

/-! ## Activation and the message channel -/

/-- Deleting the buckets named in `names`, all started together as under `Promise.all`: when no
`caches.delete` rejects, the promise resolves, each name gets one call in order, and exactly the
buckets with one of these names are gone. -/
theorem cachesDelete_all_run (env : Env)
    (hdel : ∀ name, env.storageDeleteRejects name = false)
    (names : List String) (w : World) :
    ∃ values, Async.all (names.map (fun name => cachesDelete env name)) w =
      (Settled.resolved values,
       { caches := w.caches.filter (fun b => !names.contains b.1)
         trace := w.trace ++ names.map Effect.cachesDelete }) := by
  induction names generalizing w with
  | nil => exact ⟨[], by simp [Async.all, Async.unit]⟩
  | cons name rest ih =>
    obtain ⟨values, h⟩ := ih
      { caches := w.caches.filter (fun b => b.1 != name)
        trace := w.trace ++ [Effect.cachesDelete name] }
    refine ⟨w.caches.any (fun b => b.1 == name) :: values, ?_⟩
    simp only [List.map_cons, Async.all, cachesDelete, hdel, Bool.false_eq_true, if_false, h,
      List.filter_filter]
    refine Prod.ext rfl ?_
    simp only
    congr 1
    · apply List.filter_congr
      intro b _
      by_cases hb : b.1 = name
      · simp [hb]
      · have h1 : (b.1 != name) = true := by simpa using hb
        have h2 : (b.1 == name) = false := by simpa using hb
        simp [List.contains_cons, h1, h2, hb]
    · simp [List.append_assoc]

/-- C14. When `caches.keys` and `caches.delete` themselves do not reject, the `activate` handler
calls `caches.delete` for exactly the bucket names that start with `staff-rota-` and are neither
`STATIC_CACHE` nor `DYNAMIC_CACHE`, and afterwards exactly the buckets with these names are
gone: the two current buckets and every bucket with another prefix are still there. -/
theorem C14_activate_deletes_old_versions (env : Env) (w : World)
    (hkeys : env.storageKeysRejects = false)
    (hdel : ∀ name, env.storageDeleteRejects name = false) :
    (V17.activateListener env w).2.caches =
      w.caches.filter (fun b =>
        !(startsWith b.1 "staff-rota-" && b.1 != V17.STATIC_CACHE &&
          b.1 != V17.DYNAMIC_CACHE)) ∧
    (V17.activateListener env w).2.trace =
      w.trace ++ Effect.cachesKeys ::
        (((w.caches.map (fun b => b.1)).filter (fun name =>
            startsWith name "staff-rota-" && name != V17.STATIC_CACHE &&
            name != V17.DYNAMIC_CACHE)).map Effect.cachesDelete ++
          [Effect.clientsClaim]) := by
  obtain ⟨values, h⟩ := cachesDelete_all_run env hdel
    ((w.caches.map (fun b => b.1)).filter (fun name =>
      startsWith name "staff-rota-" && name != V17.STATIC_CACHE &&
      name != V17.DYNAMIC_CACHE))
    (w.log Effect.cachesKeys)
  have hrun : V17.activateListener env w =
      clientsClaim env
        { caches := (w.log Effect.cachesKeys).caches.filter (fun b =>
            !((w.caches.map (fun b => b.1)).filter (fun name =>
              startsWith name "staff-rota-" && name != V17.STATIC_CACHE &&
              name != V17.DYNAMIC_CACHE)).contains b.1)
          trace := (w.log Effect.cachesKeys).trace ++
            ((w.caches.map (fun b => b.1)).filter (fun name =>
              startsWith name "staff-rota-" && name != V17.STATIC_CACHE &&
              name != V17.DYNAMIC_CACHE)).map Effect.cachesDelete } := by
    simp only [V17.activateListener, bind, Async.andThen, cachesKeys, hkeys,
      Bool.false_eq_true, if_false, h]
  rw [hrun]
  constructor
  · cases hc : env.claimRejects <;>
    simp only [clientsClaim, hc, Bool.false_eq_true, if_false, if_true, World.log]
    all_goals
      apply List.filter_congr
      intro b hb
      have hmem : b.1 ∈ w.caches.map (fun b => b.1) := List.mem_map_of_mem (fun b => b.1) hb
      cases hold : (startsWith b.1 "staff-rota-" && b.1 != V17.STATIC_CACHE &&
          b.1 != V17.DYNAMIC_CACHE)
      · have : ¬ b.1 ∈ (w.caches.map (fun b => b.1)).filter (fun name =>
            startsWith name "staff-rota-" && name != V17.STATIC_CACHE &&
            name != V17.DYNAMIC_CACHE) := by
          intro hin
          have := (List.mem_filter.mp hin).2
          rw [hold] at this
          exact absurd this (by decide)
        simp [this]
      · have : b.1 ∈ (w.caches.map (fun b => b.1)).filter (fun name =>
            startsWith name "staff-rota-" && name != V17.STATIC_CACHE &&
            name != V17.DYNAMIC_CACHE) := List.mem_filter.mpr ⟨hmem, hold⟩
        simp [this]
  · cases hc : env.claimRejects <;>
    simp [clientsClaim, hc, World.log, List.append_assoc]

/-- C14 with buckets of version 1.6, of version 1.7 and of another application. -/
theorem C14_activate_deletes_old_versions_witness :
    (V17.activateListener onlineEnv mixedBucketsWorld).2.caches =
      [(V17.STATIC_CACHE, []),
       (V17.DYNAMIC_CACHE, [(stylesheetRequest, staleResponse)]),
       ("other-app-v1", [])] :=
  (C14_activate_deletes_old_versions onlineEnv mixedBucketsWorld rfl (fun _ => rfl)).1.trans
    (by decide)

/-- C12. On a `CLEAR_CACHE` message, when `caches.keys` and `caches.delete` themselves do not
reject, the promise given to `event.waitUntil` resolves and afterwards Cache Storage holds no
bucket, whatever the buckets were called. -/
theorem C12_clear_cache_empties_storage (env : Env) (w : World) (event : V17.MessageEvent)
    (htype : event.data = some { type := some "CLEAR_CACHE" })
    (hkeys : env.storageKeysRejects = false)
    (hdel : ∀ name, env.storageDeleteRejects name = false) :
    (V17.messageListener env event w).1 = Settled.resolved () ∧
    (V17.messageListener env event w).2.caches = [] ∧
    (V17.messageListener env event w).2 = (V17.clearAllCaches env w).2 ∧
    (∃ values, (V17.clearAllCaches env w).1 = Settled.resolved values) := by
  obtain ⟨values, h⟩ := cachesDelete_all_run env hdel (w.caches.map (fun b => b.1))
    (w.log Effect.cachesKeys)
  have hclear : V17.clearAllCaches env w =
      (Settled.resolved values,
       { caches := (w.log Effect.cachesKeys).caches.filter (fun b =>
           !(w.caches.map (fun b => b.1)).contains b.1)
         trace := (w.log Effect.cachesKeys).trace ++
           (w.caches.map (fun b => b.1)).map Effect.cachesDelete }) := by
    simp only [V17.clearAllCaches, bind, Async.andThen, cachesKeys, hkeys, Bool.false_eq_true,
      if_false, h]
  have hlistener : V17.messageListener env event w =
      (Settled.resolved (), (V17.clearAllCaches env w).2) := by
    simp [V17.messageListener, htype, bind, Async.andThen, pure, Async.unit, Async.detach]
  rw [hlistener, hclear]
  refine ⟨rfl, ?_, rfl, ⟨values, rfl⟩⟩
  simp only [World.log]
  rw [List.filter_eq_nil_iff]
  intro b hb
  have hmem : b.1 ∈ w.caches.map (fun b => b.1) := List.mem_map_of_mem (fun b => b.1) hb
  simp [hmem]

/-- C12 with buckets of two versions and of another application. -/
theorem C12_clear_cache_empties_storage_witness :
    (V17.messageListener onlineEnv clearCacheEvent mixedBucketsWorld).2.caches = [] :=
  (C12_clear_cache_empties_storage onlineEnv mixedBucketsWorld clearCacheEvent rfl rfl
    (fun _ => rfl)).2.1

/-- C13. On a `GET_VERSION` message that comes with a port, the listener makes one browser
call: it posts `{ version: CACHE_VERSION }` on the first port, and the buckets stay as they
are. `CACHE_VERSION` is the prefix of both bucket names. A message whose `type` is none of
`SKIP_WAITING`, `CLEAR_CACHE` and `GET_VERSION` changes nothing and makes no browser call. -/
theorem C13_get_version_reply (env : Env) (w : World) (event : V17.MessageEvent) :
    (∀ port others, event.data = some { type := some "GET_VERSION" } →
      event.ports = port :: others →
      V17.messageListener env event w =
        (Settled.resolved (),
         { caches := w.caches
           trace := w.trace ++
             [Effect.postMessage port [("version", V17.CACHE_VERSION)]] })) ∧
    V17.STATIC_CACHE = V17.CACHE_VERSION ++ "-static" ∧
    V17.DYNAMIC_CACHE = V17.CACHE_VERSION ++ "-dynamic" ∧
    (∀ data, event.data = some data →
      data.type ≠ some "SKIP_WAITING" → data.type ≠ some "CLEAR_CACHE" →
      data.type ≠ some "GET_VERSION" →
      V17.messageListener env event w = (Settled.resolved (), w)) := by
  refine ⟨?_, rfl, rfl, ?_⟩
  · intro port others hdata hports
    simp [V17.messageListener, hdata, hports, bind, Async.andThen, pure, Async.unit,
      postMessage, World.log]
  · intro data hdata h1 h2 h3
    simp [V17.messageListener, hdata, h1, h2, h3, bind, Async.andThen, pure, Async.unit]

/-- C13 at a `GET_VERSION` message with port 7. -/
theorem C13_get_version_reply_witness :
    (V17.messageListener onlineEnv getVersionEvent mixedBucketsWorld).2.trace =
      [Effect.postMessage 7 [("version", "staff-rota-v1.7")]] ∧
    (V17.messageListener onlineEnv getVersionEvent mixedBucketsWorld).2.caches =
      mixedBucketsWorld.caches :=
  ⟨congrArg (fun run => run.2.trace)
      ((C13_get_version_reply onlineEnv mixedBucketsWorld getVersionEvent).1 7 [] rfl rfl),
   congrArg (fun run => run.2.caches)
      ((C13_get_version_reply onlineEnv mixedBucketsWorld getVersionEvent).1 7 [] rfl rfl)⟩

/-! ## Form auto-save: restoring -/

/-- C17, at a draft without a path. The stored draft records the empty string as its path,
which differs from the path of the page; `restore` writes the saved reason into the form and
returns `true`, because the path test is skipped for a falsy `url`. -/
theorem C17_restore_ignores_empty_path :
    FormAutoSave.getItem pathlessDraftPage.localStorage "staff_rota_form_leave" =
      some "pathless-draft" ∧
    (exampleBrowser.parse "pathless-draft").map (fun entry => entry.url) = some (some "") ∧
    some "" ≠ some pathlessDraftPage.pathname ∧
    (FormAutoSave.restore exampleBrowser (FormAutoSave.defaultConfig "leave") leaveForm
        pathlessDraftPage).1 = true ∧
    ((FormAutoSave.restore exampleBrowser (FormAutoSave.defaultConfig "leave") leaveForm
        pathlessDraftPage).2.map (fun f => f.value)) = ["Holiday"] ∧
    leaveForm.map (fun f => f.value) = [""] := by
  decide

/-- What `restore` does on every input. It returns `true` only when a non-empty entry exists
under the storage key, it parses, and the path recorded in it is absent, empty or equal to the
current location path; the form is then the one `setFormData` produces from the saved data. When
there is no entry, or when the recorded path is not empty and differs from the current path,
`restore` returns `false` and leaves the form as it was. -/
theorem FormAutoSave.restore_gate (browser : FormAutoSave.Browser)
    (config : FormAutoSave.Config) (form : FormAutoSave.Form) (page : FormAutoSave.Page) :
    ((FormAutoSave.restore browser config form page).1 = true →
      ∃ saved entry data,
        FormAutoSave.getItem page.localStorage (config.storagePrefix ++ config.storageKey) =
          some saved ∧
        saved ≠ "" ∧
        browser.parse saved = some entry ∧
        (truthy entry.url = false ∨ entry.url = some page.pathname) ∧
        entry.data = some data ∧
        (FormAutoSave.restore browser config form page).2 =
          FormAutoSave.setFormData form data) ∧
    (FormAutoSave.getItem page.localStorage (config.storagePrefix ++ config.storageKey) = none →
      FormAutoSave.restore browser config form page = (false, form)) ∧
    (∀ saved entry,
      FormAutoSave.getItem page.localStorage (config.storagePrefix ++ config.storageKey) =
        some saved →
      browser.parse saved = some entry →
      truthy entry.url = true → entry.url ≠ some page.pathname →
      FormAutoSave.restore browser config form page = (false, form)) := by
  refine ⟨?_, ?_, ?_⟩
  · intro hres
    cases ht : browser.getItemThrows (config.storagePrefix ++ config.storageKey) with
    | true => simp [FormAutoSave.restore, ht] at hres
    | false =>
      cases hi : FormAutoSave.getItem page.localStorage
          (config.storagePrefix ++ config.storageKey) with
      | none => simp [FormAutoSave.restore, ht, hi] at hres
      | some saved =>
        by_cases hne : saved = ""
        · simp [FormAutoSave.restore, ht, hi, hne] at hres
        · cases hp : browser.parse saved with
          | none => simp [FormAutoSave.restore, ht, hi, hne, hp] at hres
          | some entry =>
            cases hg : (truthy entry.url && entry.url != some page.pathname) with
            | true => simp [FormAutoSave.restore, ht, hi, hne, hp, hg] at hres
            | false =>
              cases hd : entry.data with
              | none => simp [FormAutoSave.restore, ht, hi, hne, hp, hg, hd] at hres
              | some data =>
                have hgate : truthy entry.url = false ∨ entry.url = some page.pathname := by
                  cases htr : truthy entry.url
                  · exact Or.inl rfl
                  · right
                    by_contra hneq
                    have : (truthy entry.url && entry.url != some page.pathname) = true := by
                      simp [htr, hneq]
                    rw [hg] at this
                    exact absurd this (by decide)
                refine ⟨saved, entry, data, rfl, hne, hp, hgate, hd, ?_⟩
                cases hcb : config.onRestore with
                | none => simp [FormAutoSave.restore, ht, hi, hne, hp, hg, hd, hcb]
                | some callback =>
                  cases hc : callback data <;>
                  simp [FormAutoSave.restore, ht, hi, hne, hp, hg, hd, hcb, hc]
  · intro hnone
    cases ht : browser.getItemThrows (config.storagePrefix ++ config.storageKey) <;>
    simp [FormAutoSave.restore, ht, hnone]
  · intro saved entry hsaved hentry htruthy hdiff
    have hcond : (truthy entry.url && entry.url != some page.pathname) = true := by
      simp [htruthy, hdiff]
    cases ht : browser.getItemThrows (config.storagePrefix ++ config.storageKey) <;>
    by_cases hne : saved = "" <;>
    simp [FormAutoSave.restore, ht, hsaved, hne, hentry, hcond]

/-- The path test at work: on another page than the one a draft was recorded on, nothing is
restored. -/
theorem FormAutoSave.restore_refuses_other_path :
    FormAutoSave.restore exampleBrowser (FormAutoSave.defaultConfig "leave") leaveForm
      otherPage = (false, leaveForm) :=
  (FormAutoSave.restore_gate exampleBrowser (FormAutoSave.defaultConfig "leave")
    leaveForm otherPage).2.2 "leave-draft" leaveDraft (by decide) (by decide) (by decide)
    (by decide)

/-! ## Form auto-save: what is written -/

theorem FormAutoSave.addEntry_excluded (excludeFields : List String)
    (data : FormAutoSave.FormDataObject) (entry : String × String)
    (h : excludeFields.contains entry.1 = true) :
    FormAutoSave.addEntry excludeFields data entry = data := by
  unfold FormAutoSave.addEntry
  rw [if_neg]
  simpa using h

/-- Entries with an excluded name do not influence the data object. -/
theorem FormAutoSave.getFormData_filter (entries : List (String × String))
    (excludeFields : List String) :
    FormAutoSave.getFormData entries excludeFields =
      FormAutoSave.getFormData
        (entries.filter (fun e => !excludeFields.contains e.1)) excludeFields := by
  unfold FormAutoSave.getFormData
  generalize ([] : FormAutoSave.FormDataObject) = data
  induction entries generalizing data with
  | nil => rfl
  | cons entry rest ih =>
    cases hex : excludeFields.contains entry.1
    · simp only [List.foldl_cons, List.filter_cons, hex, Bool.not_false, if_true]
      exact ih _
    · simp only [List.foldl_cons, List.filter_cons, hex, Bool.not_true, Bool.false_eq_true,
        if_false, FormAutoSave.addEntry_excluded _ _ _ hex]
      exact ih _

theorem FormAutoSave.mem_set (data : FormAutoSave.FormDataObject) (key : String)
    (value : FormAutoSave.FieldValue) (e : String × FormAutoSave.FieldValue)
    (he : e ∈ FormAutoSave.FormDataObject.set data key value) :
    e.1 = key ∨ e ∈ data := by
  unfold FormAutoSave.FormDataObject.set at he
  split at he
  · obtain ⟨e0, he0, rfl⟩ := List.mem_map.mp he
    by_cases hk : e0.1 = key
    · left
      simp [hk]
    · right
      simpa [hk] using he0
  · rcases List.mem_append.mp he with h | h
    · exact Or.inr h
    · left
      have : e = (key, value) := by simpa using h
      rw [this]

/-- No property of the data object carries an excluded name. -/
theorem FormAutoSave.getFormData_keys (entries : List (String × String))
    (excludeFields : List String) (e : String × FormAutoSave.FieldValue)
    (he : e ∈ FormAutoSave.getFormData entries excludeFields) :
    excludeFields.contains e.1 = false := by
  have hgen : ∀ (data : FormAutoSave.FormDataObject),
      (∀ e ∈ data, excludeFields.contains e.1 = false) →
      ∀ e ∈ entries.foldl (FormAutoSave.addEntry excludeFields) data,
        excludeFields.contains e.1 = false := by
    clear he
    induction entries with
    | nil => intro data hdata e he; exact hdata e he
    | cons entry rest ih =>
      intro data hdata
      rw [List.foldl_cons]
      apply ih
      intro e he
      cases hex : excludeFields.contains entry.1
      · have hcase : e.1 = entry.1 ∨ e ∈ data := by
          unfold FormAutoSave.addEntry at he
          simp only [hex, Bool.not_false, if_true] at he
          split at he
          · exact FormAutoSave.mem_set _ _ _ _ he
          · split at he <;> exact FormAutoSave.mem_set _ _ _ _ he
          · exact FormAutoSave.mem_set _ _ _ _ he
        rcases hcase with h | h
        · rw [h]; exact hex
        · exact hdata e h
      · rw [FormAutoSave.addEntry_excluded _ _ _ hex] at he
        exact hdata e he
  exact hgen [] (fun _ h => absurd h (List.not_mem_nil _)) e he

theorem FormAutoSave.getItem_setItem (storage : List (String × String)) (key value : String) :
    FormAutoSave.getItem (FormAutoSave.setItem storage key value) key = some value := by
  unfold FormAutoSave.getItem FormAutoSave.setItem
  split
  · rename_i hany
    induction storage with
    | nil => simp at hany
    | cons e rest ih =>
      by_cases he : e.1 = key
      · simp [he]
      · have hrest : rest.any (fun e => e.1 == key) = true := by simpa [he] using hany
        simpa [he] using ih hrest
  · rename_i hany
    have hnone : storage.find? (fun e => e.1 == key) = none := by
      rw [List.find?_eq_none]
      intro e he hek
      exact hany (List.any_eq_true.mpr ⟨e, he, hek⟩)
    simp [List.find?_append, hnone]

/-- C18. With the default configuration, the data object that `save` stringifies and writes to
`localStorage` has no property named `csrfmiddlewaretoken` or `submit`, and two forms whose
entries agree once the entries of these two names are left out give the same data object, and
`save` leaves the same page state behind for both. -/
theorem C18_excluded_fields_not_saved (browser : FormAutoSave.Browser) (storageKey : String)
    (page : FormAutoSave.Page) (entries others : List (String × String)) :
    (∀ e ∈ FormAutoSave.getFormData entries
        (FormAutoSave.defaultConfig storageKey).excludeFields,
      e.1 ≠ "csrfmiddlewaretoken" ∧ e.1 ≠ "submit") ∧
    ((∀ value, browser.setItemThrows ("staff_rota_form_" ++ storageKey) value = false) →
      FormAutoSave.getItem
          (FormAutoSave.save browser (FormAutoSave.defaultConfig storageKey) entries
            page).localStorage
          ("staff_rota_form_" ++ storageKey) =
        some (browser.stringify
          { data := some (FormAutoSave.getFormData entries ["csrfmiddlewaretoken", "submit"])
            timestamp := some browser.now
            url := some page.pathname })) ∧
    (entries.filter (fun e => e.1 != "csrfmiddlewaretoken" && e.1 != "submit") =
        others.filter (fun e => e.1 != "csrfmiddlewaretoken" && e.1 != "submit") →
      FormAutoSave.getFormData entries (FormAutoSave.defaultConfig storageKey).excludeFields =
        FormAutoSave.getFormData others (FormAutoSave.defaultConfig storageKey).excludeFields ∧
      FormAutoSave.save browser (FormAutoSave.defaultConfig storageKey) entries page =
        FormAutoSave.save browser (FormAutoSave.defaultConfig storageKey) others page) := by
  refine ⟨?_, ?_, ?_⟩
  · intro e he
    have h := FormAutoSave.getFormData_keys _ _ e he
    simp only [FormAutoSave.defaultConfig] at h
    constructor
    · intro hk
      rw [hk] at h
      exact absurd h (by decide)
    · intro hk
      rw [hk] at h
      exact absurd h (by decide)
  · intro hset
    simp only [FormAutoSave.save, FormAutoSave.defaultConfig, hset, Bool.false_eq_true,
      if_false]
    exact FormAutoSave.getItem_setItem _ _ _
  · intro hagree
    have hpred : (fun e : String × String =>
        !(FormAutoSave.defaultConfig storageKey).excludeFields.contains e.1) =
        (fun e => e.1 != "csrfmiddlewaretoken" && e.1 != "submit") := by
      funext e
      by_cases h1 : e.1 = "csrfmiddlewaretoken" <;> by_cases h2 : e.1 = "submit" <;>
      simp [FormAutoSave.defaultConfig, h1, h2]
    have hdata : FormAutoSave.getFormData entries
        (FormAutoSave.defaultConfig storageKey).excludeFields =
        FormAutoSave.getFormData others
          (FormAutoSave.defaultConfig storageKey).excludeFields := by
      rw [FormAutoSave.getFormData_filter entries, FormAutoSave.getFormData_filter others,
        hpred, hagree]
    refine ⟨hdata, ?_⟩
    simp only [FormAutoSave.save, hdata]

/-- C18 at two sessions of the leave form that differ in the token and the button text. -/
theorem C18_excluded_fields_not_saved_witness :
    FormAutoSave.save exampleBrowser (FormAutoSave.defaultConfig "leave") leaveEntries
        pathlessDraftPage =
      FormAutoSave.save exampleBrowser (FormAutoSave.defaultConfig "leave") leaveEntriesLater
        pathlessDraftPage ∧
    FormAutoSave.getItem
        (FormAutoSave.save exampleBrowser (FormAutoSave.defaultConfig "leave") leaveEntries
          pathlessDraftPage).localStorage "staff_rota_form_leave" = some "reason=Holiday" :=
  ⟨((C18_excluded_fields_not_saved exampleBrowser "leave" pathlessDraftPage leaveEntries
      leaveEntriesLater).2.2 (by decide)).2,
   ((C18_excluded_fields_not_saved exampleBrowser "leave" pathlessDraftPage leaveEntries
      leaveEntriesLater).2.1 (fun _ => rfl)).trans (by decide)⟩

/-! ## Form auto-save: names with several values -/

theorem FormAutoSave.get_set_self (data : FormAutoSave.FormDataObject) (key : String)
    (value : FormAutoSave.FieldValue) :
    FormAutoSave.FormDataObject.get (FormAutoSave.FormDataObject.set data key value) key =
      some value := by
  unfold FormAutoSave.FormDataObject.get FormAutoSave.FormDataObject.set
  split
  · rename_i hany
    induction data with
    | nil => simp at hany
    | cons e rest ih =>
      by_cases he : e.1 = key
      · simp [he]
      · have hrest : rest.any (fun e => e.1 == key) = true := by simpa [he] using hany
        simpa [he] using ih hrest
  · rename_i hany
    have hnone : data.find? (fun e => e.1 == key) = none := by
      rw [List.find?_eq_none]
      intro e he hek
      exact hany (List.any_eq_true.mpr ⟨e, he, hek⟩)
    simp [List.find?_append, hnone]

theorem FormAutoSave.find_replace_of_ne (data : FormAutoSave.FormDataObject)
    (key other : String) (value : FormAutoSave.FieldValue) (h : other ≠ key) :
    ((data.map (fun e => if e.1 == key then (key, value) else e)).find?
        (fun e => e.1 == other)).map (fun e => e.2) =
      (data.find? (fun e => e.1 == other)).map (fun e => e.2) := by
  have hko : ¬ key = other := fun e => h e.symm
  induction data with
  | nil => rfl
  | cons e rest ih =>
    rw [List.map_cons, List.find?_cons, List.find?_cons]
    by_cases he : e.1 = key
    · have heo : ¬ e.1 = other := fun e2 => h (e2.symm.trans he)
      have h1 : ((if (e.1 == key) = true then (key, value) else e).1 == other) = false := by
        simp [he, hko]
      have h2 : (e.1 == other) = false := by simpa using heo
      rw [h1, h2]
      exact ih
    · by_cases heo : e.1 = other
      · have h1 : ((if (e.1 == key) = true then (key, value) else e).1 == other) = true := by
          simp [heo, h]
        have h2 : (e.1 == other) = true := by simpa using heo
        rw [h1, h2]
        simp [he]
      · have h1 : ((if (e.1 == key) = true then (key, value) else e).1 == other) = false := by
          simp [he, heo]
        have h2 : (e.1 == other) = false := by simpa using heo
        rw [h1, h2]
        exact ih

theorem FormAutoSave.get_set_of_ne (data : FormAutoSave.FormDataObject) (key other : String)
    (value : FormAutoSave.FieldValue) (h : other ≠ key) :
    FormAutoSave.FormDataObject.get (FormAutoSave.FormDataObject.set data key value) other =
      FormAutoSave.FormDataObject.get data other := by
  have hko : ¬ key = other := fun e => h e.symm
  unfold FormAutoSave.FormDataObject.get FormAutoSave.FormDataObject.set
  split
  · exact FormAutoSave.find_replace_of_ne data key other value h
  · cases hf : data.find? (fun e => e.1 == other) <;>
    simp [List.find?_append, hf, hko]

/-- Where the data object agrees with the specification: for a name that is not excluded and
none of whose values is the empty string, `getFormData` yields the value for one entry and
the array of all values, in form order, for several. -/
theorem FormAutoSave.getFormData_get_of_nonempty (entries : List (String × String))
    (excludeFields : List String) (key : String)
    (hkey : excludeFields.contains key = false)
    (hvalues : ∀ e ∈ entries, e.1 = key → e.2 ≠ "") :
    FormAutoSave.FormDataObject.get (FormAutoSave.getFormData entries excludeFields) key =
      specFieldValue ((entries.filter (fun e => e.1 == key)).map (fun e => e.2)) := by
  induction entries using List.reverseRecOn with
  | nil => rfl
  | append_singleton init last ih =>
    have hinit := ih (fun e he => hvalues e (List.mem_append.mpr (Or.inl he)))
    have hstep : FormAutoSave.getFormData (init ++ [last]) excludeFields =
        FormAutoSave.addEntry excludeFields (FormAutoSave.getFormData init excludeFields)
          last := by
      simp [FormAutoSave.getFormData, List.foldl_append]
    rw [hstep]
    by_cases hk : last.1 = key
    · have hlast : last.2 ≠ "" := hvalues last (by simp) hk
      have hfilter : ((init ++ [last]).filter (fun e => e.1 == key)).map (fun e => e.2) =
          (init.filter (fun e => e.1 == key)).map (fun e => e.2) ++ [last.2] := by
        simp [List.filter_append, hk]
      rw [hfilter]
      have hex : excludeFields.contains last.1 = false := by rw [hk]; exact hkey
      have hmem : key ∉ excludeFields := by simpa using hkey
      unfold FormAutoSave.addEntry
      simp only [hex, Bool.not_false, if_true, hk]
      rw [hinit]
      cases hvs : (init.filter (fun e => e.1 == key)).map (fun e => e.2) with
      | nil => simp [specFieldValue, FormAutoSave.get_set_self, hmem]
      | cons v rest =>
        cases rest with
        | nil =>
          have hv : v ≠ "" := by
            have hmem : v ∈ (init.filter (fun e => e.1 == key)).map (fun e => e.2) := by
              rw [hvs]; simp
            obtain ⟨e, he, rfl⟩ := List.mem_map.mp hmem
            have he2 := List.mem_filter.mp he
            exact hvalues e (List.mem_append.mpr (Or.inl he2.1)) (by simpa using he2.2)
          simp [specFieldValue, FormAutoSave.get_set_self, hv, hmem]
        | cons v2 rest2 => simp [specFieldValue, FormAutoSave.get_set_self, hmem]
    · have hfilter : ((init ++ [last]).filter (fun e => e.1 == key)).map (fun e => e.2) =
          (init.filter (fun e => e.1 == key)).map (fun e => e.2) := by
        simp [List.filter_append, hk]
      rw [hfilter, ← hinit]
      have hkl : key ≠ last.1 := fun e => hk e.symm
      unfold FormAutoSave.addEntry
      split
      · split
        · exact FormAutoSave.get_set_of_ne _ _ _ _ hkl
        · split <;> exact FormAutoSave.get_set_of_ne _ _ _ _ hkl
        · exact FormAutoSave.get_set_of_ne _ _ _ _ hkl
      · rfl

/-! ## Colour contrast checker -/

theorem ColorContrastChecker.add_nan (a : ColorContrastChecker.Arithmetic)
    (x : ColorContrastChecker.JSNumber) :
    ColorContrastChecker.JSNumber.add a x ColorContrastChecker.JSNumber.nan =
      ColorContrastChecker.JSNumber.nan := by
  cases x <;> rfl

theorem ColorContrastChecker.mul_nan (a : ColorContrastChecker.Arithmetic)
    (x : ColorContrastChecker.JSNumber) :
    ColorContrastChecker.JSNumber.mul a x ColorContrastChecker.JSNumber.nan =
      ColorContrastChecker.JSNumber.nan := by
  cases x <;> rfl

/-- A channel that is `NaN` makes the weighted sum `NaN`. -/
theorem ColorContrastChecker.weightedSum_nan (a : ColorContrastChecker.Arithmetic)
    (r g : ColorContrastChecker.JSNumber) :
    ColorContrastChecker.weightedSum a r g ColorContrastChecker.JSNumber.nan =
      ColorContrastChecker.JSNumber.nan := by
  have hgamma : ColorContrastChecker.gammaCorrect a ColorContrastChecker.JSNumber.nan =
      ColorContrastChecker.JSNumber.nan := rfl
  unfold ColorContrastChecker.weightedSum
  rw [hgamma, ColorContrastChecker.mul_nan, ColorContrastChecker.add_nan]

/-- The three-digit colour `#FFF` has no third pair of digits: its luminance is `NaN`. -/
theorem ColorContrastChecker.getLuminance_short_hex (a : ColorContrastChecker.Arithmetic) :
    ColorContrastChecker.getLuminance a "#FFF" =
      Except.ok ColorContrastChecker.JSNumber.nan := by
  have hstart : startsWith "#FFF" "#" = true := by decide
  have hblue : ColorContrastChecker.parseInt
      (ColorContrastChecker.substr (ColorContrastChecker.replace "#FFF" "#" "") 4 2) 16 =
      none := by decide
  unfold ColorContrastChecker.getLuminance
  simp only [hstart, if_true, hblue]
  have hdiv : ColorContrastChecker.JSNumber.div a
      (ColorContrastChecker.toNumber a none) ColorContrastChecker.n255 =
      ColorContrastChecker.JSNumber.nan := rfl
  rw [hdiv, ColorContrastChecker.weightedSum_nan]

/-- Every colour that starts with `#` has a luminance: the hex branch does not throw. -/
theorem ColorContrastChecker.getLuminance_hex_ok (a : ColorContrastChecker.Arithmetic)
    (color : String) (h : startsWith color "#" = true) :
    ∃ l, ColorContrastChecker.getLuminance a color = Except.ok l := by
  unfold ColorContrastChecker.getLuminance
  simp only [h, if_true]
  exact ⟨_, rfl⟩

/-- C21, at the failing input. For the three-digit colour `#FFF` on `#000000` the blue channel
parses to `NaN` and so does the contrast ratio, whatever the floating-point arithmetic: the
result has `passAA` false and level `Fail`, and its `recommendation` is `null`. -/
theorem C21_nan_ratio_fails_without_recommendation (a : ColorContrastChecker.Arithmetic) :
    ColorContrastChecker.getContrastRatio a "#FFF" "#000000" =
      Except.ok ColorContrastChecker.JSNumber.nan ∧
    ColorContrastChecker.checkCompliance a "#FFF" "#000000" false =
      Except.ok { ratio := a.toFixed2 ColorContrastChecker.JSNumber.nan
                  passAA := false
                  passAAA := false
                  level := "Fail"
                  recommendation := none } := by
  obtain ⟨l2, h2⟩ := ColorContrastChecker.getLuminance_hex_ok a "#000000" (by decide)
  have hratio : ColorContrastChecker.getContrastRatio a "#FFF" "#000000" =
      Except.ok ColorContrastChecker.JSNumber.nan := by
    unfold ColorContrastChecker.getContrastRatio
    rw [ColorContrastChecker.getLuminance_short_hex, h2]
    rfl
  refine ⟨hratio, ?_⟩
  unfold ColorContrastChecker.checkCompliance
  rw [hratio]
  rfl

/-- Where `checkCompliance` agrees with the specification. Whenever it returns, `passAA` and
`passAAA` are the comparisons of the contrast ratio with the thresholds (4.5 and 7.0 for normal
text, 3.0 and 4.5 for large text), `passAAA` implies `passAA`, the level is `AAA`, `AA` or
`Fail` accordingly, a recommendation is given exactly when the ratio is below the AA threshold,
and for a ratio that is a number this is exactly when `passAA` is false. -/
theorem ColorContrastChecker.checkCompliance_thresholds (a : ColorContrastChecker.Arithmetic)
    (foreground background : String) (isLargeText : Bool)
    (result : ColorContrastChecker.Compliance)
    (h : ColorContrastChecker.checkCompliance a foreground background isLargeText =
      Except.ok result) :
    ∃ ratio, ColorContrastChecker.getContrastRatio a foreground background = Except.ok ratio ∧
      result.passAA = ColorContrastChecker.JSNumber.ge ratio
        (ColorContrastChecker.JSNumber.value (ColorContrastChecker.Value.finite
          (if isLargeText then 3 else 9 / 2))) ∧
      result.passAAA = ColorContrastChecker.JSNumber.ge ratio
        (ColorContrastChecker.JSNumber.value (ColorContrastChecker.Value.finite
          (if isLargeText then 9 / 2 else 7))) ∧
      (result.passAAA = true → result.passAA = true) ∧
      (result.level = "AAA" ↔ result.passAAA = true) ∧
      (result.level = "AA" ↔ (result.passAA = true ∧ result.passAAA = false)) ∧
      (result.level = "Fail" ↔ result.passAA = false) ∧
      (result.recommendation.isSome = true ↔
        ColorContrastChecker.JSNumber.lt ratio
          (ColorContrastChecker.aaThreshold isLargeText) = true) ∧
      (ratio ≠ ColorContrastChecker.JSNumber.nan →
        (result.recommendation.isSome = true ↔ result.passAA = false)) := by
  cases hr : ColorContrastChecker.getContrastRatio a foreground background with
  | error e =>
    simp [ColorContrastChecker.checkCompliance, hr, bind, Except.bind] at h
  | ok ratio =>
    refine ⟨ratio, rfl, ?_⟩
    have hshape : ∃ recommendation : Option String,
        recommendation.isSome =
          ColorContrastChecker.JSNumber.lt ratio
            (ColorContrastChecker.aaThreshold isLargeText) ∧
        result =
          { ratio := a.toFixed2 ratio
            passAA := ColorContrastChecker.JSNumber.ge ratio
              (ColorContrastChecker.aaThreshold isLargeText)
            passAAA := ColorContrastChecker.JSNumber.ge ratio
              (ColorContrastChecker.aaaThreshold isLargeText)
            level :=
              if ColorContrastChecker.JSNumber.ge ratio
                  (ColorContrastChecker.aaaThreshold isLargeText) then "AAA"
              else if ColorContrastChecker.JSNumber.ge ratio
                  (ColorContrastChecker.aaThreshold isLargeText) then "AA"
              else "Fail"
            recommendation := recommendation } := by
      cases hlt : ColorContrastChecker.JSNumber.lt ratio
          (ColorContrastChecker.aaThreshold isLargeText) with
      | false =>
        simp [ColorContrastChecker.checkCompliance, hr, hlt, bind, Except.bind, pure,
          Except.pure] at h
        exact ⟨none, rfl, h.symm⟩
      | true =>
        cases hrec : ColorContrastChecker.getRecommendation a foreground background with
        | error e =>
          simp [ColorContrastChecker.checkCompliance, hr, hlt, hrec, bind, Except.bind,
            Except.map] at h
        | ok text =>
          simp [ColorContrastChecker.checkCompliance, hr, hlt, hrec, bind, Except.bind, pure,
            Except.pure, Except.map] at h
          exact ⟨some text, rfl, h.symm⟩
    obtain ⟨recommendation, hsome, hresult⟩ := hshape
    subst hresult
    simp only [hsome]
    cases ratio with
    | nan =>
      simp [ColorContrastChecker.JSNumber.ge, ColorContrastChecker.JSNumber.le,
        ColorContrastChecker.JSNumber.lt, ColorContrastChecker.aaThreshold,
        ColorContrastChecker.aaaThreshold]
    | value v =>
      cases v with
      | negInf =>
        cases isLargeText <;>
        simp [ColorContrastChecker.JSNumber.ge, ColorContrastChecker.JSNumber.le,
          ColorContrastChecker.JSNumber.lt, ColorContrastChecker.aaThreshold,
          ColorContrastChecker.aaaThreshold, ColorContrastChecker.Value.le]
      | posInf =>
        cases isLargeText <;>
        simp [ColorContrastChecker.JSNumber.ge, ColorContrastChecker.JSNumber.le,
          ColorContrastChecker.JSNumber.lt, ColorContrastChecker.aaThreshold,
          ColorContrastChecker.aaaThreshold, ColorContrastChecker.Value.le]
      | finite x =>
        cases isLargeText
        · by_cases h1 : (9 / 2 : ℚ) ≤ x <;> by_cases h2 : (7 : ℚ) ≤ x <;>
          simp [ColorContrastChecker.JSNumber.ge, ColorContrastChecker.JSNumber.le,
            ColorContrastChecker.JSNumber.lt, ColorContrastChecker.aaThreshold,
            ColorContrastChecker.aaaThreshold, ColorContrastChecker.Value.le, h1, h2]
          all_goals linarith
        · by_cases h1 : (3 : ℚ) ≤ x <;> by_cases h2 : (9 / 2 : ℚ) ≤ x <;>
          simp [ColorContrastChecker.JSNumber.ge, ColorContrastChecker.JSNumber.le,
            ColorContrastChecker.JSNumber.lt, ColorContrastChecker.aaThreshold,
            ColorContrastChecker.aaaThreshold, ColorContrastChecker.Value.le, h1, h2]
          all_goals linarith

end StaffRota
